import Mathlib

/-!
Verification development for `junebug/channel.py`: a shallow embedding of the
Channel lifecycle state machine and the message translator functions, together
with theorems settling the specification claims.

Python dictionaries with JSON-representable values are modelled by the mutual
inductive types `JVal` / `JObj` below; a `JObj` is an insertion-ordered
association list with the operations Python code uses (`d[k]`, `d.get(k)`,
`d[k] = v`, `d.pop(k)`, `d.update(p)`).  Python exceptions are modelled by the
`PyErr` type; a fallible operation returns `Except PyErr`.  Stateful
operations take and return explicit state.
-/

mutual

/-- A JSON-representable Python value: string, bool, number, None, or dict. -/
inductive JVal where
  | str : String → JVal
  | bool : Bool → JVal
  | num : Int → JVal
  | null : JVal
  | obj : JObj → JVal
deriving DecidableEq, Repr

/-- An insertion-ordered string-keyed Python dictionary. -/
inductive JObj where
  | nil : JObj
  | cons : String → JVal → JObj → JObj
deriving DecidableEq, Repr

end

namespace JObj

/-- Lookup of a key: `d.get(k)` as an `Option` (no None-vs-absent conflation). -/
def get? : JObj → String → Option JVal
  | .nil, _ => none
  | .cons k v r, k2 => if k = k2 then some v else get? r k2

/-- Python `k in d`. -/
def mem (d : JObj) (k : String) : Bool := (d.get? k).isSome

/-- Python `d.get(k)`: the value, or `None` when the key is absent. -/
def getv (d : JObj) (k : String) : JVal := (d.get? k).getD .null

/-- Python `d[k] = v`: replace the first binding in place, else append. -/
def set : JObj → String → JVal → JObj
  | .nil, k, v => .cons k v .nil
  | .cons k1 v1 r, k, v =>
    if k1 = k then .cons k1 v r else .cons k1 v1 (set r k v)

/-- Python `d.pop(k)` / `del d[k]`: remove the binding of `k`. -/
def pop : JObj → String → JObj
  | .nil, _ => .nil
  | .cons k1 v1 r, k => if k1 = k then pop r k else .cons k1 v1 (pop r k)

/-- Python `d.update(p)`: set each of `p`'s bindings in order. -/
def upd : JObj → JObj → JObj
  | d, .nil => d
  | d, .cons k v r => upd (d.set k v) r

/-- The list of keys in insertion order. -/
def keys : JObj → List String
  | .nil => []
  | .cons k _ r => k :: keys r

end JObj

/-- A raised Python exception, as distinguishable by the claims.
`invalidMessage` is the `InvalidMessage` error kind of the spec (declared in
the repository outside `src/junebug/channel.py`); nothing in
`src/junebug/channel.py` raises it. -/
inductive PyErr where
  | keyError : String → PyErr
  | attributeError : String → PyErr
  | typeError : PyErr
  | valueError : PyErr
  | channelNotFound : PyErr
  | invalidChannelType : String → PyErr
  | invalidMessage : PyErr
deriving DecidableEq, Repr

/-- Python `d[k]`: the value, or a `KeyError` naming the key. -/
def JObj.idx (d : JObj) (k : String) : Except PyErr JVal :=
  match d.get? k with
  | some v => .ok v
  | none => .error (.keyError k)

/-- Python `v is not None`. -/
def JVal.isNotNone : JVal → Bool
  | .null => false
  | _ => true

/-! ## Message translator (`Channel.api_from_message` / `Channel.message_from_api`) -/

/-- The two `channel_data.pop` statements of `message_from_api`
(src/junebug/channel.py lines 166-169): `continue_session` and then
`session_event` are removed when bound to a non-None value. -/
def popSessionFields (cd0 : JObj) : JObj :=
  let cd1 := if (cd0.getv "continue_session").isNotNone
    then cd0.pop "continue_session" else cd0
  if (cd1.getv "session_event").isNotNone
    then cd1.pop "session_event" else cd1

/-- The result dict built by `message_from_api` (src/junebug/channel.py lines
160-173), given the already-extracted `from`/`content` values and the
`channel_data` dict, with assignments in source order. -/
def mfaRet (id : String) (msg : JObj) (fromv content : JVal) (cd0 : JObj) : JObj :=
  let cs := cd0.getv "continue_session"
  let cd1 := if cs.isNotNone then cd0.pop "continue_session" else cd0
  let se := cd1.getv "session_event"
  let ret := ((((JObj.nil.set "to_addr" (msg.getv "to")).set
      "from_addr" fromv).set "content" content).set "transport_name" (.str id))
  let ret := if cs.isNotNone then ret.set "continue_session" cs else ret
  let ret := if se.isNotNone then ret.set "session_event" se else ret
  ret.set "helper_metadata" (.obj (popSessionFields cd0))

/-- `Channel.message_from_api(id, msg)` (src/junebug/channel.py lines 160-173).
Returns the translated dict (or the raised exception) together with the
post-state of `msg`: the two `pop` calls mutate the dict object that
`msg['channel_data']` refers to, so when `channel_data` is present its popped
form is visible through `msg` afterwards. -/
def message_from_api (id : String) (msg : JObj) : Except PyErr JObj × JObj :=
  match msg.idx "from" with
  | .error e => (.error e, msg)
  | .ok fromv =>
    match msg.idx "content" with
    | .error e => (.error e, msg)
    | .ok content =>
      match msg.get? "channel_data" with
      | some (.obj cd0) =>
        (.ok (mfaRet id msg fromv content cd0),
          msg.set "channel_data" (.obj (popSessionFields cd0)))
      | some _ => (.error (.attributeError "get"), msg)
      | none => (.ok (mfaRet id msg fromv content .nil), msg)

/-- The two conditional write-backs of `api_from_message`
(src/junebug/channel.py lines 154-157): `ret['channel_data']` aliases
`msg['helper_metadata']`, and assigning into it requires a dict value. -/
def afmFoldSession (msg : JObj) (hm : JVal) : Except PyErr JVal :=
  let step1 : Except PyErr JVal :=
    if (msg.getv "continue_session").isNotNone then
      match hm with
      | .obj d => .ok (.obj (d.set "continue_session" (msg.getv "continue_session")))
      | _ => .error .typeError
    else .ok hm
  match step1 with
  | .error e => .error e
  | .ok hm1 =>
    if (msg.getv "session_event").isNotNone then
      match hm1 with
      | .obj d => .ok (.obj (d.set "session_event" (msg.getv "session_event")))
      | _ => .error .typeError
    else .ok hm1

/-- `Channel.api_from_message(msg)` (src/junebug/channel.py lines 143-158).
Returns the translated dict (or the raised exception) together with the
post-state of `msg`: `ret['channel_data']` aliases `msg['helper_metadata']`,
so the conditional assignments into it are visible through `msg` afterwards. -/
def api_from_message (msg : JObj) : Except PyErr JObj × JObj :=
  match msg.idx "to_addr" with
  | .error e => (.error e, msg)
  | .ok toa =>
  match msg.idx "from_addr" with
  | .error e => (.error e, msg)
  | .ok froma =>
  match msg.idx "message_id" with
  | .error e => (.error e, msg)
  | .ok mid =>
  match msg.idx "transport_name" with
  | .error e => (.error e, msg)
  | .ok tname =>
  match msg.idx "timestamp" with
  | .error e => (.error e, msg)
  | .ok ts =>
  match msg.idx "in_reply_to" with
  | .error e => (.error e, msg)
  | .ok irt =>
  match msg.idx "content" with
  | .error e => (.error e, msg)
  | .ok content =>
  match msg.idx "helper_metadata" with
  | .error e => (.error e, msg)
  | .ok hm =>
  match afmFoldSession msg hm with
  | .error e => (.error e, msg)
  | .ok hm2 =>
    let ret := (((((((JObj.nil.set "to" toa).set "from" froma).set
      "message_id" mid).set "channel_id" tname).set "timestamp" ts).set
      "reply_to" irt).set "content" content).set "channel_data" hm2
    (.ok ret, msg.set "helper_metadata" hm2)

/-- Modelled from the spec: `send_message` (src/junebug/channel.py lines
134-142) passes the `message_from_api` output through vumi's
`TransportUserMessage.send` — code outside this repository, abstracted by the
spec as the message-bus collaborator — which completes it with the
transport-internal fields `message_id`, `timestamp` and `in_reply_to` before
`api_from_message` is applied to the resulting message.  The filled values are
arbitrary here. -/
def vumi_send_fill (fields : JObj) (mid ts irt : JVal) : JObj :=
  ((fields.set "message_id" mid).set "timestamp" ts).set "in_reply_to" irt

/-- The fields of the external (API-facing) message shape, in the order
`api_from_message` assigns them. -/
def external_message_fields : List String :=
  ["to", "from", "message_id", "channel_id", "timestamp", "reply_to",
   "content", "channel_data"]

/-! ## Dictionary lemmas -/

deriving instance DecidableEq for Except

theorem JObj.get?_set_self : (d : JObj) → (k : String) → (v : JVal) →
    (d.set k v).get? k = some v
  | .nil, k, v => by simp [JObj.set, JObj.get?]
  | .cons k1 v1 r, k, v => by
    by_cases h : k1 = k
    · simp [JObj.set, JObj.get?, h]
    · simp [JObj.set, JObj.get?, h, get?_set_self r k v]

theorem JObj.get?_set_ne : (d : JObj) → (k k2 : String) → (v : JVal) →
    k ≠ k2 → (d.set k v).get? k2 = d.get? k2
  | .nil, k, k2, v, h => by simp [JObj.set, JObj.get?, h]
  | .cons k1 v1 r, k, k2, v, h => by
    by_cases h1 : k1 = k
    · subst h1
      simp [JObj.set, JObj.get?, h]
    · simp [JObj.set, JObj.get?, h1, get?_set_ne r k k2 v h]

theorem JObj.get?_pop_self : (d : JObj) → (k : String) →
    (d.pop k).get? k = none
  | .nil, k => by simp [JObj.pop, JObj.get?]
  | .cons k1 v1 r, k => by
    by_cases h : k1 = k
    · simp [JObj.pop, h, get?_pop_self r k]
    · simp [JObj.pop, JObj.get?, h, get?_pop_self r k]

theorem JObj.get?_pop_ne : (d : JObj) → (k k2 : String) → k ≠ k2 →
    (d.pop k).get? k2 = d.get? k2
  | .nil, k, k2, h => by simp [JObj.pop]
  | .cons k1 v1 r, k, k2, h => by
    by_cases h1 : k1 = k
    · subst h1
      simp [JObj.pop, JObj.get?, h, get?_pop_ne r k1 k2 h]
    · simp [JObj.pop, JObj.get?, h1, get?_pop_ne r k k2 h]

theorem JObj.set_unchanged : (d : JObj) → (k : String) → (v : JVal) →
    d.get? k = some v → d.set k v = d
  | .nil, k, v, h => by simp [JObj.get?] at h
  | .cons k1 v1 r, k, v, h => by
    by_cases h1 : k1 = k
    · subst h1
      simp [JObj.get?] at h
      simp [JObj.set, h]
    · simp [JObj.get?, h1] at h
      simp [JObj.set, h1, set_unchanged r k v h]

theorem JObj.mem_iff_get? (d : JObj) (k : String) :
    d.mem k = true ↔ ∃ v, d.get? k = some v := by
  simp [JObj.mem, Option.isSome_iff_exists]

theorem JObj.mem_false_iff (d : JObj) (k : String) :
    d.mem k = false ↔ d.get? k = none := by
  unfold JObj.mem
  cases d.get? k <;> simp

/-- Shape of a successful `message_from_api` run with `channel_data` present. -/
theorem message_from_api_ok (id : String) (m : JObj) (fv cv : JVal) (cd : JObj)
    (hf : m.get? "from" = some fv) (hc : m.get? "content" = some cv)
    (hcd : m.get? "channel_data" = some (.obj cd)) :
    message_from_api id m =
      (.ok (mfaRet id m fv cv cd),
        m.set "channel_data" (.obj (popSessionFields cd))) := by
  simp [message_from_api, JObj.idx, hf, hc, hcd]

/-- Shape of a successful `message_from_api` run with `channel_data` absent. -/
theorem message_from_api_ok_nocd (id : String) (m : JObj) (fv cv : JVal)
    (hf : m.get? "from" = some fv) (hc : m.get? "content" = some cv)
    (hcd : m.get? "channel_data" = none) :
    message_from_api id m = (.ok (mfaRet id m fv cv .nil), m) := by
  simp [message_from_api, JObj.idx, hf, hc, hcd]

/-! ## Claim C6: failure mode of message_from_api on missing required fields -/

/-- Claim C6, counterexample: on an external message missing `from`,
`message_from_api` raises `KeyError("from")` — Python dict indexing — not the
`InvalidMessage` error the claim names (nothing in
src/junebug/channel.py raises `InvalidMessage`). -/
theorem c6_counterexample :
    (message_from_api "c" (.cons "content" (.str "hi") .nil)).1
        = .error (.keyError "from") ∧
      (message_from_api "c" (.cons "content" (.str "hi") .nil)).1
        ≠ .error .invalidMessage := by
  decide

/-- Claim C6 (amended): for every external message missing `from`, translation
fails with `KeyError("from")`; with `from` present but `content` missing it
fails with `KeyError("content")` (not `InvalidMessage` in either case); and
with both present (and `channel_data`, when present, a dict) translation
succeeds, so absence of `to` never causes failure. -/
theorem c6_missing_fields (id : String) (m : JObj) :
    (m.mem "from" = false →
      (message_from_api id m).1 = .error (.keyError "from")) ∧
    (m.mem "from" = true → m.mem "content" = false →
      (message_from_api id m).1 = .error (.keyError "content")) ∧
    (m.mem "from" = true → m.mem "content" = true →
      (∀ v, m.get? "channel_data" = some v → ∃ cd, v = JVal.obj cd) →
      ∃ r, (message_from_api id m).1 = .ok r) := by
  refine ⟨?_, ?_, ?_⟩
  · intro h
    have h1 : m.get? "from" = none := (JObj.mem_false_iff m "from").1 h
    simp [message_from_api, JObj.idx, h1]
  · intro h h2
    obtain ⟨fv, hfv⟩ := (JObj.mem_iff_get? m "from").1 h
    have h3 : m.get? "content" = none := (JObj.mem_false_iff m "content").1 h2
    simp [message_from_api, JObj.idx, hfv, h3]
  · intro h h2 h3
    obtain ⟨fv, hfv⟩ := (JObj.mem_iff_get? m "from").1 h
    obtain ⟨cv, hcv⟩ := (JObj.mem_iff_get? m "content").1 h2
    cases hcd : m.get? "channel_data" with
    | none =>
      refine ⟨mfaRet id m fv cv .nil, ?_⟩
      rw [message_from_api_ok_nocd id m fv cv hfv hcv hcd]
    | some v =>
      obtain ⟨cd, rfl⟩ := h3 v hcd
      refine ⟨mfaRet id m fv cv cd, ?_⟩
      rw [message_from_api_ok id m fv cv cd hfv hcv hcd]

/-- Claim C6 amended, witness: a concrete message with `from` and `content`
but no `to` translates successfully, and one missing `content` fails with
`KeyError("content")`. -/
theorem c6_missing_fields_witness :
    (∃ r, (message_from_api "c"
        (.cons "from" (.str "f") (.cons "content" (.str "x") .nil))).1
          = .ok r) ∧
      (message_from_api "c" (.cons "from" (.str "f") .nil)).1
        = .error (.keyError "content") := by
  refine ⟨(c6_missing_fields "c"
      (.cons "from" (.str "f") (.cons "content" (.str "x") .nil))).2.2
      (by decide) (by decide) ?_,
    (c6_missing_fields "c" (.cons "from" (.str "f") .nil)).2.1
      (by decide) (by decide)⟩
  intro v hv
  simp [JObj.get?] at hv

/-! ## Claim C9: purity of the translator functions -/

/-- Post-state shape of `message_from_api`: the input is returned unchanged,
or its `channel_data` dict has had the session fields popped out of it. -/
theorem mfa_snd (id : String) (m : JObj) :
    (message_from_api id m).2 = m ∨
      ∃ cd, m.get? "channel_data" = some (.obj cd) ∧
        (message_from_api id m).2
          = m.set "channel_data" (.obj (popSessionFields cd)) := by
  unfold message_from_api
  rcases h1 : m.idx "from" with e | fv
  · simp
  rcases h2 : m.idx "content" with e | cv
  · simp
  rcases h3 : m.get? "channel_data" with _ | v
  · simp
  cases v with
  | obj cd => exact .inr ⟨cd, rfl, by simp⟩
  | str s => simp
  | bool b => simp
  | num n => simp
  | null => simp

/-- Post-state shape of `api_from_message`: the input is returned unchanged,
or its `helper_metadata` value has been replaced by the session-folded one. -/
theorem afm_snd (w : JObj) :
    (api_from_message w).2 = w ∨
      ∃ hm hm2, w.get? "helper_metadata" = some hm ∧
        afmFoldSession w hm = .ok hm2 ∧
        (api_from_message w).2 = w.set "helper_metadata" hm2 := by
  unfold api_from_message
  rcases h1 : w.idx "to_addr" with e | toa
  · simp
  rcases h2 : w.idx "from_addr" with e | froma
  · simp
  rcases h3 : w.idx "message_id" with e | mid
  · simp
  rcases h4 : w.idx "transport_name" with e | tname
  · simp
  rcases h5 : w.idx "timestamp" with e | ts
  · simp
  rcases h6 : w.idx "in_reply_to" with e | irt
  · simp
  rcases h7 : w.idx "content" with e | cv
  · simp
  rcases h8 : w.idx "helper_metadata" with e | hm
  · simp
  rcases h9 : afmFoldSession w hm with e | hm2
  · simp [h9]
  refine .inr ⟨hm, hm2, ?_, h9, by simp [h9]⟩
  unfold JObj.idx at h8
  rcases h10 : w.get? "helper_metadata" with _ | v <;> rw [h10] at h8
  · exact absurd h8 (by simp)
  · simpa using h8

/-- Claim C9, counterexample: the translator functions are not pure in their
inputs.  `message_from_api` pops `continue_session` out of the external
message's nested `channel_data` dict, and `api_from_message` writes
`continue_session` back into the internal message's `helper_metadata` dict
(aliased as the result's `channel_data`), so both inputs are mutated. -/
theorem c9_counterexample :
    (message_from_api "c"
        (.cons "from" (.str "f") (.cons "content" (.str "x")
          (.cons "channel_data"
            (.obj (.cons "continue_session" (.bool true) .nil)) .nil)))).2
      ≠ .cons "from" (.str "f") (.cons "content" (.str "x")
          (.cons "channel_data"
            (.obj (.cons "continue_session" (.bool true) .nil)) .nil)) ∧
    (api_from_message
        (.cons "to_addr" .null (.cons "from_addr" (.str "f")
          (.cons "message_id" (.str "m") (.cons "transport_name" (.str "t")
            (.cons "timestamp" (.str "ts") (.cons "in_reply_to" .null
              (.cons "content" (.str "x") (.cons "helper_metadata" (.obj .nil)
                (.cons "continue_session" (.bool true) .nil)))))))))).2
      ≠ .cons "to_addr" .null (.cons "from_addr" (.str "f")
          (.cons "message_id" (.str "m") (.cons "transport_name" (.str "t")
            (.cons "timestamp" (.str "ts") (.cons "in_reply_to" .null
              (.cons "content" (.str "x") (.cons "helper_metadata" (.obj .nil)
                (.cons "continue_session" (.bool true) .nil)))))))) := by
  decide

/-- Claim C9 (amended): the translators are pure except for the session-field
mutation.  `message_from_api` leaves the external message unchanged whenever
`channel_data` is absent, or present with neither a non-None
`continue_session` nor a non-None `session_event`; in every case it changes no
key other than `channel_data`.  `api_from_message` leaves the internal message
unchanged whenever its `continue_session` and `session_event` are absent or
None; in every case it changes no key other than `helper_metadata`. -/
theorem c9_purity (id : String) (m w : JObj) :
    (m.mem "channel_data" = false → (message_from_api id m).2 = m) ∧
    (∀ cd, m.get? "channel_data" = some (.obj cd) →
      (cd.getv "continue_session").isNotNone = false →
      (cd.getv "session_event").isNotNone = false →
      (message_from_api id m).2 = m) ∧
    (∀ k, k ≠ "channel_data" → (message_from_api id m).2.get? k = m.get? k) ∧
    ((w.getv "continue_session").isNotNone = false →
      (w.getv "session_event").isNotNone = false →
      (api_from_message w).2 = w) ∧
    (∀ k, k ≠ "helper_metadata" → (api_from_message w).2.get? k = w.get? k) := by
  refine ⟨?_, ?_, ?_, ?_, ?_⟩
  · intro h
    rcases mfa_snd id m with h1 | ⟨cd, h1, h2⟩
    · exact h1
    · rw [(JObj.mem_false_iff m "channel_data").1 h] at h1
      exact absurd h1 (by simp)
  · intro cd hcd hcs hse
    rcases mfa_snd id m with h1 | ⟨cd2, h1, h2⟩
    · exact h1
    · rw [hcd] at h1
      have hcd2 : cd2 = cd := by
        simp at h1
        exact h1.symm
      subst hcd2
      have hpop : popSessionFields cd2 = cd2 := by
        unfold popSessionFields
        simp [hcs, hse]
      rw [h2, hpop]
      exact JObj.set_unchanged m "channel_data" (.obj cd2) hcd
  · intro k hk
    rcases mfa_snd id m with h1 | ⟨cd, h1, h2⟩
    · rw [h1]
    · rw [h2]
      exact JObj.get?_set_ne m "channel_data" k _ (Ne.symm hk)
  · intro hcs hse
    rcases afm_snd w with h1 | ⟨hm, hm2, h1, h2, h3⟩
    · exact h1
    · have hfold : afmFoldSession w hm = .ok hm := by
        unfold afmFoldSession
        simp [hcs, hse]
      rw [hfold] at h2
      have hm2eq : hm2 = hm := by
        have := h2
        simp at this
        exact this.symm
      subst hm2eq
      rw [h3]
      exact JObj.set_unchanged w "helper_metadata" hm2 h1
  · intro k hk
    rcases afm_snd w with h1 | ⟨hm, hm2, h1, h2, h3⟩
    · rw [h1]
    · rw [h3]
      exact JObj.get?_set_ne w "helper_metadata" k _ (Ne.symm hk)

/-- Claim C9 amended, witness: a concrete external message without
`channel_data` and a concrete internal message with a None `continue_session`
and absent `session_event` both pass through their translator unchanged. -/
theorem c9_purity_witness :
    (message_from_api "c"
        (.cons "from" (.str "f") (.cons "content" (.str "x") .nil))).2
      = .cons "from" (.str "f") (.cons "content" (.str "x") .nil) ∧
    (api_from_message
        (.cons "to_addr" .null (.cons "from_addr" (.str "f")
          (.cons "message_id" (.str "m") (.cons "transport_name" (.str "t")
            (.cons "timestamp" (.str "ts") (.cons "in_reply_to" .null
              (.cons "content" (.str "x") (.cons "helper_metadata" (.obj .nil)
                (.cons "continue_session" .null .nil)))))))))).2
      = .cons "to_addr" .null (.cons "from_addr" (.str "f")
          (.cons "message_id" (.str "m") (.cons "transport_name" (.str "t")
            (.cons "timestamp" (.str "ts") (.cons "in_reply_to" .null
              (.cons "content" (.str "x") (.cons "helper_metadata" (.obj .nil)
                (.cons "continue_session" .null .nil)))))))) :=
  ⟨(c9_purity "c" (.cons "from" (.str "f") (.cons "content" (.str "x") .nil))
      JObj.nil).1 (by decide),
   (c9_purity "c" JObj.nil
      (.cons "to_addr" .null (.cons "from_addr" (.str "f")
        (.cons "message_id" (.str "m") (.cons "transport_name" (.str "t")
          (.cons "timestamp" (.str "ts") (.cons "in_reply_to" .null
            (.cons "content" (.str "x") (.cons "helper_metadata" (.obj .nil)
              (.cons "continue_session" .null .nil)))))))))).2.2.2.1
      (by decide) (by decide)⟩

/-! ## Claim C1: round-trip of the message translator -/

theorem JVal.isNotNone_null : JVal.null.isNotNone = false := rfl

theorem JVal.eq_null_of_isNotNone_false (v : JVal)
    (h : v.isNotNone = false) : v = .null := by
  cases v <;> simp [JVal.isNotNone] at h <;> rfl

theorem afm_filled_11 (toa fv cv tn v u mid ts irt : JVal) (cd2 : JObj)
    (hv : v.isNotNone = true) (hu : u.isNotNone = true) :
    (api_from_message (vumi_send_fill
      (.cons "to_addr" toa (.cons "from_addr" fv (.cons "content" cv
        (.cons "transport_name" tn (.cons "continue_session" v
          (.cons "session_event" u
            (.cons "helper_metadata" (.obj cd2) .nil))))))) mid ts irt)).1
    = .ok (.cons "to" toa (.cons "from" fv (.cons "message_id" mid
        (.cons "channel_id" tn (.cons "timestamp" ts (.cons "reply_to" irt
          (.cons "content" cv (.cons "channel_data"
            (.obj ((cd2.set "continue_session" v).set "session_event" u))
            .nil)))))))) := by
  simp [api_from_message, afmFoldSession, vumi_send_fill, JObj.idx,
    JObj.get?, JObj.getv, JObj.set, JVal.isNotNone_null, hv, hu]

theorem afm_filled_10 (toa fv cv tn v mid ts irt : JVal) (cd2 : JObj)
    (hv : v.isNotNone = true) :
    (api_from_message (vumi_send_fill
      (.cons "to_addr" toa (.cons "from_addr" fv (.cons "content" cv
        (.cons "transport_name" tn (.cons "continue_session" v
          (.cons "helper_metadata" (.obj cd2) .nil)))))) mid ts irt)).1
    = .ok (.cons "to" toa (.cons "from" fv (.cons "message_id" mid
        (.cons "channel_id" tn (.cons "timestamp" ts (.cons "reply_to" irt
          (.cons "content" cv (.cons "channel_data"
            (.obj (cd2.set "continue_session" v)) .nil)))))))) := by
  simp [api_from_message, afmFoldSession, vumi_send_fill, JObj.idx,
    JObj.get?, JObj.getv, JObj.set, JVal.isNotNone_null, hv]

theorem afm_filled_01 (toa fv cv tn u mid ts irt : JVal) (cd2 : JObj)
    (hu : u.isNotNone = true) :
    (api_from_message (vumi_send_fill
      (.cons "to_addr" toa (.cons "from_addr" fv (.cons "content" cv
        (.cons "transport_name" tn (.cons "session_event" u
          (.cons "helper_metadata" (.obj cd2) .nil)))))) mid ts irt)).1
    = .ok (.cons "to" toa (.cons "from" fv (.cons "message_id" mid
        (.cons "channel_id" tn (.cons "timestamp" ts (.cons "reply_to" irt
          (.cons "content" cv (.cons "channel_data"
            (.obj (cd2.set "session_event" u)) .nil)))))))) := by
  simp [api_from_message, afmFoldSession, vumi_send_fill, JObj.idx,
    JObj.get?, JObj.getv, JObj.set, JVal.isNotNone_null, hu]

theorem afm_filled_00 (toa fv cv tn mid ts irt : JVal) (cd2 : JObj) :
    (api_from_message (vumi_send_fill
      (.cons "to_addr" toa (.cons "from_addr" fv (.cons "content" cv
        (.cons "transport_name" tn
          (.cons "helper_metadata" (.obj cd2) .nil))))) mid ts irt)).1
    = .ok (.cons "to" toa (.cons "from" fv (.cons "message_id" mid
        (.cons "channel_id" tn (.cons "timestamp" ts (.cons "reply_to" irt
          (.cons "content" cv (.cons "channel_data" (.obj cd2)
            .nil)))))))) :=
  rfl

/-- The external message shape produced by a successful `api_from_message`
run, with the first seven field values and the `channel_data` value `x`. -/
def extShape (toa fv mid tn ts irt cv x : JVal) : JObj :=
  .cons "to" toa (.cons "from" fv (.cons "message_id" mid
    (.cons "channel_id" tn (.cons "timestamp" ts (.cons "reply_to" irt
      (.cons "content" cv (.cons "channel_data" x .nil)))))))

theorem extShape_basic (m : JObj) (fv mid tn ts irt cv x : JVal)
    (hfv : m.get? "from" = some fv) (hcv : m.get? "content" = some cv) :
    (∀ v, m.get? "to" = some v →
      (extShape (m.getv "to") fv mid tn ts irt cv x).get? "to" = some v) ∧
    (∀ v, m.get? "from" = some v →
      (extShape (m.getv "to") fv mid tn ts irt cv x).get? "from" = some v) ∧
    (∀ v, m.get? "content" = some v →
      (extShape (m.getv "to") fv mid tn ts irt cv x).get? "content" = some v) ∧
    (extShape (m.getv "to") fv mid tn ts irt cv x).keys
      = external_message_fields := by
  refine ⟨?_, ?_, ?_, rfl⟩
  · intro v hv
    simp [extShape, JObj.get?, JObj.getv, hv]
  · intro v hv
    rw [hfv] at hv
    obtain rfl := Option.some.inj hv
    simp [extShape, JObj.get?]
  · intro v hv
    rw [hcv] at hv
    obtain rfl := Option.some.inj hv
    simp [extShape, JObj.get?]

/-- Claim C1: round-trip of the message translator.  For every external
message `m` containing `from` and `content` (with `channel_data`, when
present, a dict), translating to the internal form with `message_from_api`,
completing it with the broker-filled transport-internal fields as
`send_message` does, and translating back with `api_from_message` reproduces
the `to`, `from` and `content` fields of `m` and the `continue_session` and
`session_event` entries of its `channel_data` exactly when they are present
in `m`, and the external result carries exactly the allowed external fields —
nothing fabricated, nothing leaked. -/
theorem c1_roundtrip (id : String) (m : JObj) (mid ts irt : JVal)
    (hfrom : m.mem "from" = true) (hcontent : m.mem "content" = true)
    (hcd : ∀ v, m.get? "channel_data" = some v → ∃ cd, v = JVal.obj cd) :
    ∃ internal m1 ext,
      message_from_api id m = (.ok internal, m1) ∧
      (api_from_message (vumi_send_fill internal mid ts irt)).1 = .ok ext ∧
      (∀ v, m.get? "to" = some v → ext.get? "to" = some v) ∧
      (∀ v, m.get? "from" = some v → ext.get? "from" = some v) ∧
      (∀ v, m.get? "content" = some v → ext.get? "content" = some v) ∧
      (∀ cd v, m.get? "channel_data" = some (.obj cd) →
        cd.get? "continue_session" = some v →
        ∃ ecd, ext.get? "channel_data" = some (.obj ecd) ∧
          ecd.get? "continue_session" = some v) ∧
      (∀ cd v, m.get? "channel_data" = some (.obj cd) →
        cd.get? "session_event" = some v →
        ∃ ecd, ext.get? "channel_data" = some (.obj ecd) ∧
          ecd.get? "session_event" = some v) ∧
      ext.keys = external_message_fields := by
  obtain ⟨fv, hfv⟩ := (JObj.mem_iff_get? m "from").1 hfrom
  obtain ⟨cv, hcv⟩ := (JObj.mem_iff_get? m "content").1 hcontent
  have hbasic := fun x => extShape_basic m fv mid (.str id) ts irt cv x hfv hcv
  cases hcd0 : m.get? "channel_data" with
  | none =>
    refine ⟨_, _, _, message_from_api_ok_nocd id m fv cv hfv hcv hcd0,
      afm_filled_00 (m.getv "to") fv cv (.str id) mid ts irt .nil,
      (hbasic _).1, (hbasic _).2.1, (hbasic _).2.2.1, ?_, ?_,
      (hbasic _).2.2.2⟩
    · intro cd v h hv
      exact absurd h.symm (by simp)
    · intro cd v h hv
      exact absurd h.symm (by simp)
  | some w =>
    obtain ⟨cd, rfl⟩ := hcd w hcd0
    have hinj : ∀ cd2 : JObj,
        (some (JVal.obj cd) = some (JVal.obj cd2)) → cd2 = cd := by
      intro cd2 h
      simpa using h.symm
    cases hocs : cd.get? "continue_session" with
    | none =>
      have hcsv : cd.getv "continue_session" = .null := by
        simp [JObj.getv, hocs]
      cases hose : cd.get? "session_event" with
      | none =>
        have hsev : cd.getv "session_event" = .null := by
          simp [JObj.getv, hose]
        have hret : mfaRet id m fv cv cd = .cons "to_addr" (m.getv "to")
            (.cons "from_addr" fv (.cons "content" cv
              (.cons "transport_name" (.str id)
                (.cons "helper_metadata" (.obj cd) .nil)))) := by
          simp [mfaRet, popSessionFields, JObj.set, hcsv, hsev,
            JVal.isNotNone_null]
        refine ⟨_, _, extShape (m.getv "to") fv mid (.str id) ts irt cv
            (.obj cd),
          message_from_api_ok id m fv cv cd hfv hcv hcd0,
          ?_, (hbasic _).1, (hbasic _).2.1, (hbasic _).2.2.1, ?_, ?_,
          (hbasic _).2.2.2⟩
        · rw [hret]
          exact afm_filled_00 (m.getv "to") fv cv (.str id) mid ts irt cd
        · intro cd2 v h hv
          rw [hinj cd2 h, hocs] at hv
          exact absurd hv (by simp)
        · intro cd2 v h hv
          rw [hinj cd2 h, hose] at hv
          exact absurd hv (by simp)
      | some u =>
        cases hu : u.isNotNone with
        | false =>
          obtain rfl := JVal.eq_null_of_isNotNone_false u hu
          have hsev : cd.getv "session_event" = .null := by
            simp [JObj.getv, hose]
          have hret : mfaRet id m fv cv cd = .cons "to_addr" (m.getv "to")
              (.cons "from_addr" fv (.cons "content" cv
                (.cons "transport_name" (.str id)
                  (.cons "helper_metadata" (.obj cd) .nil)))) := by
            simp [mfaRet, popSessionFields, JObj.set, hcsv, hsev,
              JVal.isNotNone_null]
          refine ⟨_, _, extShape (m.getv "to") fv mid (.str id) ts irt cv
              (.obj cd),
            message_from_api_ok id m fv cv cd hfv hcv hcd0,
            ?_, (hbasic _).1, (hbasic _).2.1, (hbasic _).2.2.1, ?_, ?_,
            (hbasic _).2.2.2⟩
          · rw [hret]
            exact afm_filled_00 (m.getv "to") fv cv (.str id) mid ts irt cd
          · intro cd2 v h hv
            rw [hinj cd2 h, hocs] at hv
            exact absurd hv (by simp)
          · intro cd2 v h hv
            rw [hinj cd2 h] at hv
            exact ⟨_, rfl, hv⟩
        | true =>
          have hsev : cd.getv "session_event" = u := by
            simp [JObj.getv, hose]
          have hret : mfaRet id m fv cv cd = .cons "to_addr" (m.getv "to")
              (.cons "from_addr" fv (.cons "content" cv
                (.cons "transport_name" (.str id)
                  (.cons "session_event" u
                    (.cons "helper_metadata"
                      (.obj (cd.pop "session_event")) .nil))))) := by
            simp [mfaRet, popSessionFields, JObj.set, hcsv, hsev, hu,
              JVal.isNotNone_null]
          refine ⟨_, _, extShape (m.getv "to") fv mid (.str id) ts irt cv
              (.obj ((cd.pop "session_event").set "session_event" u)),
            message_from_api_ok id m fv cv cd hfv hcv hcd0,
            ?_, (hbasic _).1, (hbasic _).2.1, (hbasic _).2.2.1, ?_, ?_,
            (hbasic _).2.2.2⟩
          · rw [hret]
            exact afm_filled_01 (m.getv "to") fv cv (.str id) u mid ts irt
              (cd.pop "session_event") hu
          · intro cd2 v h hv
            rw [hinj cd2 h, hocs] at hv
            exact absurd hv (by simp)
          · intro cd2 v h hv
            rw [hinj cd2 h, hose] at hv
            obtain rfl := Option.some.inj hv
            exact ⟨_, rfl, JObj.get?_set_self _ _ _⟩
    | some v0 =>
      cases hv0 : v0.isNotNone with
      | false =>
        obtain rfl := JVal.eq_null_of_isNotNone_false v0 hv0
        have hcsv : cd.getv "continue_session" = .null := by
          simp [JObj.getv, hocs]
        cases hose : cd.get? "session_event" with
        | none =>
          have hsev : cd.getv "session_event" = .null := by
            simp [JObj.getv, hose]
          have hret : mfaRet id m fv cv cd = .cons "to_addr" (m.getv "to")
              (.cons "from_addr" fv (.cons "content" cv
                (.cons "transport_name" (.str id)
                  (.cons "helper_metadata" (.obj cd) .nil)))) := by
            simp [mfaRet, popSessionFields, JObj.set, hcsv, hsev,
              JVal.isNotNone_null]
          refine ⟨_, _, extShape (m.getv "to") fv mid (.str id) ts irt cv
              (.obj cd),
            message_from_api_ok id m fv cv cd hfv hcv hcd0,
            ?_, (hbasic _).1, (hbasic _).2.1, (hbasic _).2.2.1, ?_, ?_,
            (hbasic _).2.2.2⟩
          · rw [hret]
            exact afm_filled_00 (m.getv "to") fv cv (.str id) mid ts irt cd
          · intro cd2 v h hv
            rw [hinj cd2 h] at hv
            exact ⟨_, rfl, hv⟩
          · intro cd2 v h hv
            rw [hinj cd2 h, hose] at hv
            exact absurd hv (by simp)
        | some u =>
          cases hu : u.isNotNone with
          | false =>
            obtain rfl := JVal.eq_null_of_isNotNone_false u hu
            have hsev : cd.getv "session_event" = .null := by
              simp [JObj.getv, hose]
            have hret : mfaRet id m fv cv cd = .cons "to_addr" (m.getv "to")
                (.cons "from_addr" fv (.cons "content" cv
                  (.cons "transport_name" (.str id)
                    (.cons "helper_metadata" (.obj cd) .nil)))) := by
              simp [mfaRet, popSessionFields, JObj.set, hcsv, hsev,
                JVal.isNotNone_null]
            refine ⟨_, _, extShape (m.getv "to") fv mid (.str id) ts irt cv
                (.obj cd),
              message_from_api_ok id m fv cv cd hfv hcv hcd0,
              ?_, (hbasic _).1, (hbasic _).2.1, (hbasic _).2.2.1, ?_, ?_,
              (hbasic _).2.2.2⟩
            · rw [hret]
              exact afm_filled_00 (m.getv "to") fv cv (.str id) mid ts irt cd
            · intro cd2 v h hv
              rw [hinj cd2 h] at hv
              exact ⟨_, rfl, hv⟩
            · intro cd2 v h hv
              rw [hinj cd2 h] at hv
              exact ⟨_, rfl, hv⟩
          | true =>
            have hsev : cd.getv "session_event" = u := by
              simp [JObj.getv, hose]
            have hret : mfaRet id m fv cv cd = .cons "to_addr" (m.getv "to")
                (.cons "from_addr" fv (.cons "content" cv
                  (.cons "transport_name" (.str id)
                    (.cons "session_event" u
                      (.cons "helper_metadata"
                        (.obj (cd.pop "session_event")) .nil))))) := by
              simp [mfaRet, popSessionFields, JObj.set, hcsv, hsev, hu,
                JVal.isNotNone_null]
            refine ⟨_, _, extShape (m.getv "to") fv mid (.str id) ts irt cv
                (.obj ((cd.pop "session_event").set "session_event" u)),
              message_from_api_ok id m fv cv cd hfv hcv hcd0,
              ?_, (hbasic _).1, (hbasic _).2.1, (hbasic _).2.2.1, ?_, ?_,
              (hbasic _).2.2.2⟩
            · rw [hret]
              exact afm_filled_01 (m.getv "to") fv cv (.str id) u mid ts irt
                (cd.pop "session_event") hu
            · intro cd2 v h hv
              rw [hinj cd2 h] at hv
              refine ⟨_, rfl, ?_⟩
              rw [JObj.get?_set_ne _ _ _ _ (by decide),
                JObj.get?_pop_ne _ _ _ (by decide)]
              exact hv
            · intro cd2 v h hv
              rw [hinj cd2 h, hose] at hv
              obtain rfl := Option.some.inj hv
              exact ⟨_, rfl, JObj.get?_set_self _ _ _⟩
      | true =>
        have hcsv : cd.getv "continue_session" = v0 := by
          simp [JObj.getv, hocs]
        cases hose : (cd.pop "continue_session").get? "session_event" with
        | none =>
          have hsev : (cd.pop "continue_session").getv "session_event"
              = .null := by
            simp [JObj.getv, hose]
          have hret : mfaRet id m fv cv cd = .cons "to_addr" (m.getv "to")
              (.cons "from_addr" fv (.cons "content" cv
                (.cons "transport_name" (.str id)
                  (.cons "continue_session" v0
                    (.cons "helper_metadata"
                      (.obj (cd.pop "continue_session")) .nil))))) := by
            simp [mfaRet, popSessionFields, JObj.set, hcsv, hsev, hv0,
              JVal.isNotNone_null]
          refine ⟨_, _, extShape (m.getv "to") fv mid (.str id) ts irt cv
              (.obj ((cd.pop "continue_session").set "continue_session" v0)),
            message_from_api_ok id m fv cv cd hfv hcv hcd0,
            ?_, (hbasic _).1, (hbasic _).2.1, (hbasic _).2.2.1, ?_, ?_,
            (hbasic _).2.2.2⟩
          · rw [hret]
            exact afm_filled_10 (m.getv "to") fv cv (.str id) v0 mid ts irt
              (cd.pop "continue_session") hv0
          · intro cd2 v h hv
            rw [hinj cd2 h, hocs] at hv
            obtain rfl := Option.some.inj hv
            exact ⟨_, rfl, JObj.get?_set_self _ _ _⟩
          · intro cd2 v h hv
            rw [hinj cd2 h] at hv
            rw [JObj.get?_pop_ne cd "continue_session" "session_event"
              (by decide)] at hose
            rw [hose] at hv
            exact absurd hv (by simp)
        | some u =>
          cases hu : u.isNotNone with
          | false =>
            obtain rfl := JVal.eq_null_of_isNotNone_false u hu
            have hsev : (cd.pop "continue_session").getv "session_event"
                = .null := by
              simp [JObj.getv, hose]
            have hret : mfaRet id m fv cv cd = .cons "to_addr" (m.getv "to")
                (.cons "from_addr" fv (.cons "content" cv
                  (.cons "transport_name" (.str id)
                    (.cons "continue_session" v0
                      (.cons "helper_metadata"
                        (.obj (cd.pop "continue_session")) .nil))))) := by
              simp [mfaRet, popSessionFields, JObj.set, hcsv, hsev, hv0,
                JVal.isNotNone_null]
            refine ⟨_, _, extShape (m.getv "to") fv mid (.str id) ts irt cv
                (.obj ((cd.pop "continue_session").set "continue_session"
                  v0)),
              message_from_api_ok id m fv cv cd hfv hcv hcd0,
              ?_, (hbasic _).1, (hbasic _).2.1, (hbasic _).2.2.1, ?_, ?_,
              (hbasic _).2.2.2⟩
            · rw [hret]
              exact afm_filled_10 (m.getv "to") fv cv (.str id) v0 mid ts irt
                (cd.pop "continue_session") hv0
            · intro cd2 v h hv
              rw [hinj cd2 h, hocs] at hv
              obtain rfl := Option.some.inj hv
              exact ⟨_, rfl, JObj.get?_set_self _ _ _⟩
            · intro cd2 v h hv
              rw [hinj cd2 h] at hv
              refine ⟨_, rfl, ?_⟩
              rw [JObj.get?_set_ne _ _ _ _ (by decide),
                JObj.get?_pop_ne _ _ _ (by decide)]
              exact hv
          | true =>
            have hsev : (cd.pop "continue_session").getv "session_event"
                = u := by
              simp [JObj.getv, hose]
            have hret : mfaRet id m fv cv cd = .cons "to_addr" (m.getv "to")
                (.cons "from_addr" fv (.cons "content" cv
                  (.cons "transport_name" (.str id)
                    (.cons "continue_session" v0
                      (.cons "session_event" u
                        (.cons "helper_metadata"
                          (.obj ((cd.pop "continue_session").pop
                            "session_event")) .nil)))))) := by
              simp [mfaRet, popSessionFields, JObj.set, hcsv, hsev, hv0, hu,
                JVal.isNotNone_null]
            refine ⟨_, _, extShape (m.getv "to") fv mid (.str id) ts irt cv
                (.obj ((((cd.pop "continue_session").pop
                  "session_event").set "continue_session" v0).set
                    "session_event" u)),
              message_from_api_ok id m fv cv cd hfv hcv hcd0,
              ?_, (hbasic _).1, (hbasic _).2.1, (hbasic _).2.2.1, ?_, ?_,
              (hbasic _).2.2.2⟩
            · rw [hret]
              exact afm_filled_11 (m.getv "to") fv cv (.str id) v0 u mid ts
                irt ((cd.pop "continue_session").pop "session_event") hv0 hu
            · intro cd2 v h hv
              rw [hinj cd2 h, hocs] at hv
              obtain rfl := Option.some.inj hv
              refine ⟨_, rfl, ?_⟩
              rw [JObj.get?_set_ne _ _ _ _ (by decide)]
              exact JObj.get?_set_self _ _ _
            · intro cd2 v h hv
              rw [hinj cd2 h] at hv
              rw [JObj.get?_pop_ne cd "continue_session" "session_event"
                (by decide)] at hose
              rw [hose] at hv
              obtain rfl := Option.some.inj hv
              exact ⟨_, rfl, JObj.get?_set_self _ _ _⟩

/-- Claim C1, witness: the round-trip theorem applied to a concrete external
message carrying `to`, `from`, `content` and a `channel_data` with a non-None
`continue_session` and an extra passthrough entry. -/
theorem c1_roundtrip_witness :
    ∃ internal m1 ext,
      message_from_api "c"
        (.cons "to" (.str "+1") (.cons "from" (.str "+2")
          (.cons "content" (.str "hi") (.cons "channel_data"
            (.obj (.cons "continue_session" (.bool true)
              (.cons "foo" (.num 7) .nil))) .nil))))
        = (.ok internal, m1) ∧
      (api_from_message
        (vumi_send_fill internal (.str "m1") (.str "t1") .null)).1
        = .ok ext ∧
      (∀ v, JObj.get? (.cons "to" (.str "+1") (.cons "from" (.str "+2")
          (.cons "content" (.str "hi") (.cons "channel_data"
            (.obj (.cons "continue_session" (.bool true)
              (.cons "foo" (.num 7) .nil))) .nil)))) "to" = some v →
        ext.get? "to" = some v) ∧
      (∀ v, JObj.get? (.cons "to" (.str "+1") (.cons "from" (.str "+2")
          (.cons "content" (.str "hi") (.cons "channel_data"
            (.obj (.cons "continue_session" (.bool true)
              (.cons "foo" (.num 7) .nil))) .nil)))) "from" = some v →
        ext.get? "from" = some v) ∧
      (∀ v, JObj.get? (.cons "to" (.str "+1") (.cons "from" (.str "+2")
          (.cons "content" (.str "hi") (.cons "channel_data"
            (.obj (.cons "continue_session" (.bool true)
              (.cons "foo" (.num 7) .nil))) .nil)))) "content" = some v →
        ext.get? "content" = some v) ∧
      (∀ cd v, JObj.get? (.cons "to" (.str "+1") (.cons "from" (.str "+2")
          (.cons "content" (.str "hi") (.cons "channel_data"
            (.obj (.cons "continue_session" (.bool true)
              (.cons "foo" (.num 7) .nil))) .nil)))) "channel_data"
          = some (.obj cd) →
        cd.get? "continue_session" = some v →
        ∃ ecd, ext.get? "channel_data" = some (.obj ecd) ∧
          ecd.get? "continue_session" = some v) ∧
      (∀ cd v, JObj.get? (.cons "to" (.str "+1") (.cons "from" (.str "+2")
          (.cons "content" (.str "hi") (.cons "channel_data"
            (.obj (.cons "continue_session" (.bool true)
              (.cons "foo" (.num 7) .nil))) .nil)))) "channel_data"
          = some (.obj cd) →
        cd.get? "session_event" = some v →
        ∃ ecd, ext.get? "channel_data" = some (.obj ecd) ∧
          ecd.get? "session_event" = some v) ∧
      ext.keys = external_message_fields :=
  c1_roundtrip "c" _ (.str "m1") (.str "t1") .null (by decide) (by decide)
    (fun v hv => ⟨_, (Option.some.inj hv).symm⟩)

/-! ## Generic string- and nat-keyed association lists

Used for the redis store (`channel id -> stored properties`), the worker
table (`handle -> worker state`) and the service table.  Insertion-ordered,
like the Python structures they model. -/

def slookup {α : Type} : List (String × α) → String → Option α
  | [], _ => none
  | (k, v) :: r, k2 => if k = k2 then some v else slookup r k2

def sset {α : Type} : List (String × α) → String → α → List (String × α)
  | [], k, v => [(k, v)]
  | (k1, v1) :: r, k, v =>
    if k1 = k then (k1, v) :: r else (k1, v1) :: sset r k v

def sremove {α : Type} : List (String × α) → String → List (String × α)
  | [], _ => []
  | (k1, v1) :: r, k => if k1 = k then sremove r k else (k1, v1) :: sremove r k

def alookup {α : Type} : List (Nat × α) → Nat → Option α
  | [], _ => none
  | (k, v) :: r, k2 => if k = k2 then some v else alookup r k2

def aset {α : Type} : List (Nat × α) → Nat → α → List (Nat × α)
  | [], k, v => [(k, v)]
  | (k1, v1) :: r, k, v =>
    if k1 = k then (k1, v) :: r else (k1, v1) :: aset r k v

/-! ## Worker supervisor and store state

`Channel` holds handles to two workers supervised by a twisted service tree;
worker handles are modelled as natural numbers allocated by a counter, so a
freshly created worker is distinguishable from every earlier one. -/

/-- The state of one worker service: its class name and config (recorded by
`WorkerCreator.create_worker`), its twisted service name (`setName`) and the
service it is attached to (`setServiceParent` / `disownServiceParent`). -/
structure WorkerInfo where
  cls_name : String
  config : JObj
  wname : Option String
  parent : Option Nat
deriving DecidableEq, Repr

/-- A twisted `MultiService` acting as parent supervisor: the `services` list
of attached children in attach order, and the `namedServices` mapping, in
which adding a service under an existing name overwrites the entry. -/
structure IService where
  children : List Nat
  named : List (String × Nat)
deriving DecidableEq, Repr

/-- The world state threaded through the channel operations: the redis store
(the per-channel `properties` key written by `save`, and the global
`channels` set), the service table, the worker table and the fresh-handle
counter.  JSON serialization through the store (`json.dumps`/`json.loads`)
is modelled as the identity on the `JObj` representation. -/
structure World where
  redisProps : List (String × JObj)
  redisChannels : List String
  services : List (Nat × IService)
  workers : List (Nat × WorkerInfo)
  nextWorker : Nat
deriving DecidableEq, Repr

/-- vumi `WorkerCreator(...).create_worker(cls_name, config)`
(`Channel._create_worker`, src/junebug/channel.py lines 235-238): a fresh,
unnamed, unattached worker handle. -/
def create_worker (w : World) (cls : String) (config : JObj) : Nat × World :=
  (w.nextWorker,
    { w with
      workers := w.workers ++ [(w.nextWorker, ⟨cls, config, none, none⟩)],
      nextWorker := w.nextWorker + 1 })

/-- twisted `service.setName(name)`. -/
def setName (w : World) (h : Nat) (n : String) : World :=
  match alookup w.workers h with
  | none => w
  | some info => { w with workers := aset w.workers h { info with wname := some n } }

/-- twisted `MultiService.removeService(service)`: when the child has a
truthy name, delete its `namedServices` entry (a `KeyError` if the name is
not present), then remove it from the `services` list (a `ValueError` if not
present). -/
def removeService (svc : IService) (h : Nat) (wname : Option String) :
    Except PyErr IService :=
  match (match wname with
         | some n =>
           if n = "" then .ok svc.named
           else
             match slookup svc.named n with
             | none => .error (.keyError n)
             | some _ => .ok (sremove svc.named n)
         | none => .ok svc.named : Except PyErr (List (String × Nat))) with
  | .error e => .error e
  | .ok named2 =>
    if h ∈ svc.children
    then .ok ⟨svc.children.erase h, named2⟩
    else .error .valueError

/-- twisted `service.disownServiceParent()`: remove the worker from its
parent (via `removeService`) and clear its `parent` attribute. -/
def disownServiceParent (w : World) (h : Nat) : Except PyErr World :=
  match alookup w.workers h with
  | none => .error (.keyError "worker")
  | some info =>
    match info.parent with
    | none => .error (.attributeError "removeService")
    | some s =>
      match alookup w.services s with
      | none => .error (.keyError "service")
      | some svc =>
        match removeService svc h info.wname with
        | .error e => .error e
        | .ok svc2 =>
          .ok { w with
            services := aset w.services s svc2,
            workers := aset w.workers h { info with parent := none } }

/-- twisted `service.setServiceParent(parent)`: disown any previous parent,
then `MultiService.addService`: set the `namedServices` entry (overwriting an
existing binding of the same name) and append to the `services` list.  A
`None` parent raises (`Channel.update` can reach this when the transport
worker was attached to no parent). -/
def setServiceParent (w : World) (h : Nat) (s : Option Nat) :
    Except PyErr World :=
  match alookup w.workers h with
  | none => .error (.keyError "worker")
  | some info =>
    match (match info.parent with
           | some _ => disownServiceParent w h
           | none => .ok w) with
    | .error e => .error e
    | .ok w1 =>
      match s with
      | none => .error (.attributeError "addService")
      | some sid =>
        match alookup w1.services sid with
        | none => .error (.keyError "service")
        | some svc =>
          match alookup w1.workers h with
          | none => .error (.keyError "worker")
          | some info1 =>
            let svc2 := { svc with
              named := match info1.wname with
                       | some n => sset svc.named n h
                       | none => svc.named,
              children := svc.children ++ [h] }
            .ok { w1 with
              services := aset w1.services sid svc2,
              workers := aset w1.workers h { info1 with parent := some sid } }

/-- twisted `MultiService.getServiceNamed(name)`: the named child, or a
`KeyError` when no child has that name. -/
def getServiceNamed (w : World) (s : Nat) (n : String) : Except PyErr Nat :=
  match alookup w.services s with
  | none => .error (.keyError n)
  | some svc =>
    match slookup svc.named n with
    | none => .error (.keyError n)
    | some h => .ok h

/-! ## Channel (src/junebug/channel.py) -/

/-- The in-memory state of `Channel.__init__` (src/junebug/channel.py lines
41-57): the channel id, the `_properties` dict, and the two worker handles,
both initially absent.  (`options`/amqp config only feed worker creation and
carry no claim-relevant state.) -/
structure Channel where
  id : String
  _properties : JObj
  transport_worker : Option Nat
  application_worker : Option Nat
deriving DecidableEq, Repr

/-- `Channel(redis, amqp, properties, id)` with an explicit id. -/
def channel_new (id : String) (properties : JObj) : Channel :=
  ⟨id, properties, none, none⟩

/-- The module-level transport registry (src/junebug/channel.py lines 28-31). -/
def transports : List (String × String) :=
  [("telnet", "vumi.transports.telnet.TelnetServerTransport"),
   ("xmpp", "vumi.transports.xmpp.XMPPTransport")]

/-- The module-level allowed internal message field list
(src/junebug/channel.py lines 33-35). -/
def allowed_message_fields : List String :=
  ["transport_name", "timestamp", "in_reply_to", "to_addr", "from_addr",
   "content", "session_event", "helper_metadata", "message_id"]

/-- Python `%r` of a JSON value (Python 2 `repr`, apostrophes as `\x27`,
braces as escapes).  Only the claim that the `InvalidChannelType` message
lists the valid types depends on the message text, never on this rendering. -/
def pyRepr : JVal → String
  | .str s => "\x27" ++ s ++ "\x27"
  | .bool true => "True"
  | .bool false => "False"
  | .num n => toString n
  | .null => "None"
  | .obj _ => "\x7b...\x7d"

/-- `transports.get(...)`: the registry is string-keyed, so any non-string
`type` value misses. -/
def transportsGet (v : JVal) : Option String :=
  match v with
  | .str t => slookup transports t
  | _ => none

/-- The `InvalidChannelType` message of `Channel._transport_cls_name`
(src/junebug/channel.py lines 198-202): the offending type followed by
`', '.join(transports.keys())`. -/
def invalid_type_msg (v : JVal) : String :=
  "Invalid channel type " ++ pyRepr v ++ ", must be one of: "
    ++ String.intercalate ", " (transports.map Prod.fst)

/-- `Channel._transport_cls_name` (src/junebug/channel.py lines 193-203). -/
def _transport_cls_name (ch : Channel) : Except PyErr String :=
  match transportsGet (ch._properties.getv "type") with
  | none => .error (.invalidChannelType
      (invalid_type_msg (ch._properties.getv "type")))
  | some cls => .ok cls

/-- `Channel._convert_unicode` (src/junebug/channel.py lines 256-264):
a deep unicode-to-bytes copy; the identity on this model, which does not
distinguish Python 2 `unicode` from `str`. -/
def _convert_unicode (v : JVal) : JVal := v

/-- `Channel._transport_config` (src/junebug/channel.py lines 182-187):
`properties['config']` (a `KeyError` when absent), converted (copied), with
`transport_name` set to the channel id; item assignment needs a dict. -/
def _transport_config (ch : Channel) : Except PyErr JObj :=
  match ch._properties.idx "config" with
  | .error e => .error e
  | .ok cfg =>
    match _convert_unicode cfg with
    | .obj d => .ok (d.set "transport_name" (.str ch.id))
    | _ => .error .typeError

/-- `Channel._application_id` (src/junebug/channel.py lines 175-177). -/
def _application_id (ch : Channel) : String := "application:" ++ ch.id

/-- `Channel._application_config` (src/junebug/channel.py lines 189-191,
a `KeyError` when `mo_url` is absent). -/
def _application_config (ch : Channel) : Except PyErr JObj :=
  match ch._properties.idx "mo_url" with
  | .error e => .error e
  | .ok mo => .ok ((JObj.nil.set "transport_name" (.str ch.id)).set
      "mo_message_url" mo)

/-- `Channel._application_cls_name` (src/junebug/channel.py lines 205-207). -/
def _application_cls_name : String := "junebug.workers.MessageForwardingWorker"

/-- `Channel._create_transport` (src/junebug/channel.py lines 225-228):
the class name is resolved before the config, and both before the worker is
created, so nothing is created on either failure. -/
def _create_transport (ch : Channel) (w : World) :
    Except PyErr (Nat × World) :=
  match _transport_cls_name ch with
  | .error e => .error e
  | .ok cls =>
    match _transport_config ch with
    | .error e => .error e
    | .ok cfg => .ok (create_worker w cls cfg)

/-- `Channel._create_application` (src/junebug/channel.py lines 230-233). -/
def _create_application (ch : Channel) (w : World) :
    Except PyErr (Nat × World) :=
  match _application_config ch with
  | .error e => .error e
  | .ok cfg => .ok (create_worker w _application_cls_name cfg)

/-- `Channel._start_transport` (src/junebug/channel.py lines 209-217): use
the injected worker when given, else create one; name it after the channel
id, attach it under `service`, and store the handle. -/
def _start_transport (ch : Channel) (service : Option Nat)
    (transport_worker : Option Nat) (w : World) :
    Except PyErr Unit × Channel × World :=
  match (match transport_worker with
         | some t => .ok (t, w)
         | none => _create_transport ch w : Except PyErr (Nat × World)) with
  | .error e => (.error e, ch, w)
  | .ok (t, w1) =>
    let w2 := setName w1 t ch.id
    match setServiceParent w2 t service with
    | .error e => (.error e, ch, w2)
    | .ok w3 => (.ok (), { ch with transport_worker := some t }, w3)

/-- `Channel._start_application` (src/junebug/channel.py lines 219-223). -/
def _start_application (ch : Channel) (service : Option Nat) (w : World) :
    Except PyErr Unit × Channel × World :=
  match _create_application ch w with
  | .error e => (.error e, ch, w)
  | .ok (a, w1) =>
    let w2 := setName w1 a (_application_id ch)
    match setServiceParent w2 a service with
    | .error e => (.error e, ch, w2)
    | .ok w3 => (.ok (), { ch with application_worker := some a }, w3)

/-- `Channel.start` (src/junebug/channel.py lines 59-63): transport first,
then application. -/
def Channel.start (ch : Channel) (service : Option Nat)
    (transport_worker : Option Nat) (w : World) :
    Except PyErr Unit × Channel × World :=
  match _start_transport ch service transport_worker w with
  | (.error e, ch1, w1) => (.error e, ch1, w1)
  | (.ok _, ch1, w1) => _start_application ch1 service w1

/-- `Channel._stop_application` (src/junebug/channel.py lines 247-250): when
a handle is present, detach it and clear the handle; the handle is cleared
only after a successful detach. -/
def _stop_application (ch : Channel) (w : World) :
    Except PyErr Unit × Channel × World :=
  match ch.application_worker with
  | none => (.ok (), ch, w)
  | some a =>
    match disownServiceParent w a with
    | .error e => (.error e, ch, w)
    | .ok w1 => (.ok (), { ch with application_worker := none }, w1)

/-- `Channel._stop_transport` (src/junebug/channel.py lines 240-245). -/
def _stop_transport (ch : Channel) (w : World) :
    Except PyErr Unit × Channel × World :=
  match ch.transport_worker with
  | none => (.ok (), ch, w)
  | some t =>
    match disownServiceParent w t with
    | .error e => (.error e, ch, w)
    | .ok w1 => (.ok (), { ch with transport_worker := none }, w1)

/-- `Channel.stop` (src/junebug/channel.py lines 65-69): the application
worker is detached first, then the transport worker. -/
def Channel.stop (ch : Channel) (w : World) :
    Except PyErr Unit × Channel × World :=
  match _stop_application ch w with
  | (.error e, ch1, w1) => (.error e, ch1, w1)
  | (.ok _, ch1, w1) => _stop_transport ch1 w1

/-- redis `sadd`: add to the set when not yet a member. -/
def saddChannels (l : List String) (x : String) : List String :=
  if x ∈ l then l else l ++ [x]

/-- `Channel.save` (src/junebug/channel.py lines 71-77): serialize
`_properties` under the channel's `properties` key and add the id to the
`channels` set (`json.dumps` modelled as the identity on the stored value). -/
def Channel.save (ch : Channel) (w : World) : World :=
  { w with redisProps := sset w.redisProps ch.id ch._properties,
           redisChannels := saddChannels w.redisChannels ch.id }

/-- `Channel.status` (src/junebug/channel.py lines 101-107): a deep copy of
the properties with `id` and an empty `status` added. -/
def Channel.status (ch : Channel) : JObj :=
  (ch._properties.set "id" (.str ch.id)).set "status" (.obj .nil)

/-- `Channel.update` (src/junebug/channel.py lines 79-93): merge into
`_properties`, `save`, and — when the merge carried a non-None `config` —
read the parent off `transport_worker` (an `AttributeError` when the channel
has no transport worker), `stop`, `start` under that parent, and finally
return `status()`. -/
def Channel.update (ch : Channel) (properties : JObj) (w : World) :
    Except PyErr JObj × Channel × World :=
  let ch1 := { ch with _properties := ch._properties.upd properties }
  let w1 := ch1.save w
  if (properties.getv "config").isNotNone then
    match ch1.transport_worker with
    | none => (.error (.attributeError "parent"), ch1, w1)
    | some t =>
      let service := match alookup w1.workers t with
                     | some info => info.parent
                     | none => none
      match ch1.stop w1 with
      | (.error e, ch2, w2) => (.error e, ch2, w2)
      | (.ok _, ch2, w2) =>
        match ch2.start service none w2 with
        | (.error e, ch3, w3) => (.error e, ch3, w3)
        | (.ok _, ch3, w3) => (.ok ch3.status, ch3, w3)
  else (.ok ch1.status, ch1, w1)

/-- `Channel.delete` (src/junebug/channel.py lines 95-99): remove the
channel's `properties` key; nothing else — not the `channels` set membership,
not the workers. -/
def Channel.delete (ch : Channel) (w : World) : World :=
  { w with redisProps := sremove w.redisProps ch.id }

/-- `Channel.from_id` (src/junebug/channel.py lines 109-123): load the
stored properties (`ChannelNotFound` when the key is absent, `json.loads`
modelled as the identity), then `_restore` (lines 252-254): look up the
already-running workers named after the channel via `getServiceNamed`. -/
def from_id (w : World) (id : String) (parent : Nat) :
    Except PyErr Channel :=
  match slookup w.redisProps id with
  | none => .error .channelNotFound
  | some props =>
    match getServiceNamed w parent id with
    | .error e => .error e
    | .ok t =>
      match getServiceNamed w parent ("application:" ++ id) with
      | .error e => .error e
      | .ok a => .ok ⟨id, props, some t, some a⟩

/-- `Channel.get_all` (src/junebug/channel.py lines 125-130): the members of
the `channels` set. -/
def get_all (w : World) : List String := w.redisChannels

/-! ## Association-list lemmas -/

theorem slookup_sset_self {α : Type} : (l : List (String × α)) → (k : String)
    → (v : α) → slookup (sset l k v) k = some v
  | [], k, v => by simp [sset, slookup]
  | (k1, v1) :: r, k, v => by
    by_cases h : k1 = k
    · simp [sset, slookup, h]
    · simp [sset, slookup, h, slookup_sset_self r k v]

theorem slookup_sset_ne {α : Type} : (l : List (String × α)) →
    (k k2 : String) → (v : α) → k ≠ k2 →
    slookup (sset l k v) k2 = slookup l k2
  | [], k, k2, v, h => by simp [sset, slookup, h]
  | (k1, v1) :: r, k, k2, v, h => by
    by_cases h1 : k1 = k
    · subst h1
      simp [sset, slookup, h]
    · simp [sset, slookup, h1, slookup_sset_ne r k k2 v h]

theorem slookup_sremove_self {α : Type} : (l : List (String × α)) →
    (k : String) → slookup (sremove l k) k = none
  | [], k => by simp [sremove, slookup]
  | (k1, v1) :: r, k => by
    by_cases h : k1 = k
    · simp [sremove, h, slookup_sremove_self r k]
    · simp [sremove, slookup, h, slookup_sremove_self r k]

theorem slookup_sremove_ne {α : Type} : (l : List (String × α)) →
    (k k2 : String) → k ≠ k2 →
    slookup (sremove l k) k2 = slookup l k2
  | [], k, k2, h => by simp [sremove]
  | (k1, v1) :: r, k, k2, h => by
    by_cases h1 : k1 = k
    · subst h1
      simp [sremove, slookup, h, slookup_sremove_ne r k1 k2 h]
    · simp [sremove, slookup, h1, slookup_sremove_ne r k k2 h]

/-! ## Claim C8: stop is idempotent -/

theorem _stop_application_none (ch : Channel) (w : World)
    (h : ch.application_worker = none) :
    _stop_application ch w = (.ok (), ch, w) := by
  simp [_stop_application, h]

theorem _stop_application_some (ch : Channel) (w : World) (a : Nat)
    (h : ch.application_worker = some a) :
    _stop_application ch w =
      (match disownServiceParent w a with
       | .error e => (.error e, ch, w)
       | .ok w1 => (.ok (), { ch with application_worker := none }, w1)) := by
  simp [_stop_application, h]

theorem _stop_transport_none (ch : Channel) (w : World)
    (h : ch.transport_worker = none) :
    _stop_transport ch w = (.ok (), ch, w) := by
  simp [_stop_transport, h]

theorem _stop_transport_some (ch : Channel) (w : World) (t : Nat)
    (h : ch.transport_worker = some t) :
    _stop_transport ch w =
      (match disownServiceParent w t with
       | .error e => (.error e, ch, w)
       | .ok w1 => (.ok (), { ch with transport_worker := none }, w1)) := by
  simp [_stop_transport, h]

/-- Successful `_stop_application` leaves the application handle cleared and
everything else of the channel unchanged. -/
theorem channel_clear_app (ch : Channel)
    (h : ch.application_worker = none) :
    { ch with application_worker := none } = ch := by
  rcases ch with ⟨i, p, tw, aw⟩
  simp at h
  rw [h]

theorem channel_clear_transport (ch : Channel)
    (h : ch.transport_worker = none) :
    { ch with transport_worker := none } = ch := by
  rcases ch with ⟨i, p, tw, aw⟩
  simp at h
  rw [h]

theorem _stop_application_ok (ch : Channel) (w : World) (u : Unit)
    (ch2 : Channel) (w2 : World)
    (h : _stop_application ch w = (.ok u, ch2, w2)) :
    ch2 = { ch with application_worker := none } := by
  cases haw : ch.application_worker with
  | none =>
    rw [_stop_application_none ch w haw] at h
    simp at h
    rw [channel_clear_app ch haw]
    exact h.1.symm
  | some a =>
    rw [_stop_application_some ch w a haw] at h
    cases hd : disownServiceParent w a with
    | error e =>
      rw [hd] at h
      simp at h
    | ok w3 =>
      rw [hd] at h
      simp at h
      exact h.1.symm

/-- Successful `_stop_transport` leaves the transport handle cleared and
everything else of the channel unchanged. -/
theorem _stop_transport_ok (ch : Channel) (w : World) (u : Unit)
    (ch2 : Channel) (w2 : World)
    (h : _stop_transport ch w = (.ok u, ch2, w2)) :
    ch2 = { ch with transport_worker := none } := by
  cases htw : ch.transport_worker with
  | none =>
    rw [_stop_transport_none ch w htw] at h
    simp at h
    rw [channel_clear_transport ch htw]
    exact h.1.symm
  | some t =>
    rw [_stop_transport_some ch w t htw] at h
    cases hd : disownServiceParent w t with
    | error e =>
      rw [hd] at h
      simp at h
    | ok w3 =>
      rw [hd] at h
      simp at h
      exact h.1.symm

/-- Claim C8: `stop` detaches the application worker first and the transport
worker second, clearing each handle; a detach with an already-absent handle
is skipped without error.  Consequently a successful `stop` leaves both
handles cleared, and a second `stop` succeeds and changes nothing. -/
theorem c8_stop_idempotent (ch : Channel) (w : World) :
    (ch.application_worker = none → ch.transport_worker = none →
      ch.stop w = (.ok (), ch, w)) ∧
    (∀ ch1 w1 u, ch.stop w = (.ok u, ch1, w1) →
      ch1.application_worker = none ∧ ch1.transport_worker = none ∧
      ch1.stop w1 = (.ok (), ch1, w1)) := by
  constructor
  · intro h1 h2
    simp [Channel.stop, _stop_application, _stop_transport, h1, h2]
  · intro ch1 w1 u h
    rw [Channel.stop] at h
    rcases ha : _stop_application ch w with ⟨ea, ch2, w2⟩
    rw [ha] at h
    cases ea with
    | error e => simp at h
    | ok ua =>
      obtain rfl := _stop_application_ok ch w ua ch2 w2 ha
      obtain rfl := _stop_transport_ok _ w2 u ch1 w1 h
      refine ⟨rfl, rfl, ?_⟩
      simp [Channel.stop, _stop_application, _stop_transport]

/-- Claim C8, witness: a concrete running channel is stopped via the theorem
applied to the already-stopped result, showing the second stop is a no-op;
the first stop itself is evaluated concretely. -/
theorem c8_stop_idempotent_witness :
    Channel.stop ⟨"c", .nil, some 1, some 2⟩
      ⟨[], [], [(0, ⟨[1, 2], [("c", 1), ("application:c", 2)]⟩)],
        [(1, ⟨"t", .nil, some "c", some 0⟩),
         (2, ⟨"a", .nil, some "application:c", some 0⟩)], 3⟩
      = (.ok (), ⟨"c", .nil, none, none⟩,
        ⟨[], [], [(0, ⟨[], []⟩)],
          [(1, ⟨"t", .nil, some "c", none⟩),
           (2, ⟨"a", .nil, some "application:c", none⟩)], 3⟩) ∧
    Channel.stop ⟨"c", .nil, none, none⟩
        ⟨[], [], [(0, ⟨[], []⟩)],
          [(1, ⟨"t", .nil, some "c", none⟩),
           (2, ⟨"a", .nil, some "application:c", none⟩)], 3⟩
      = (.ok (), ⟨"c", .nil, none, none⟩,
        ⟨[], [], [(0, ⟨[], []⟩)],
          [(1, ⟨"t", .nil, some "c", none⟩),
           (2, ⟨"a", .nil, some "application:c", none⟩)], 3⟩) := by
  constructor
  · decide
  · exact ((c8_stop_idempotent ⟨"c", .nil, none, none⟩
      ⟨[], [], [(0, ⟨[], []⟩)],
        [(1, ⟨"t", .nil, some "c", none⟩),
         (2, ⟨"a", .nil, some "application:c", none⟩)], 3⟩).1 rfl rfl)

/-! ## Claim C5: start with an unknown channel type -/

/-- Claim C5: for every channel whose `type` does not resolve in the
transport registry, `start` raises `InvalidChannelType` with a message
listing the valid types, and neither the world (no worker created or
attached) nor the channel (both handles) is changed. -/
theorem c5_invalid_type (ch : Channel) (s : Option Nat) (w : World)
    (h : transportsGet (ch._properties.getv "type") = none) :
    ch.start s none w
      = (.error (.invalidChannelType
          (invalid_type_msg (ch._properties.getv "type"))), ch, w) ∧
    ∃ pre, invalid_type_msg (ch._properties.getv "type")
      = pre ++ String.intercalate ", " (transports.map Prod.fst) := by
  constructor
  · simp [Channel.start, _start_transport, _create_transport,
      _transport_cls_name, h]
  · exact ⟨"Invalid channel type "
      ++ pyRepr (ch._properties.getv "type") ++ ", must be one of: ", rfl⟩

/-- Claim C5, witness: a concrete channel of type `smpp` (not in the
registry) fails to start with the message listing `telnet, xmpp`, leaving
channel and world unchanged. -/
theorem c5_invalid_type_witness :
    Channel.start (channel_new "c" (.cons "type" (.str "smpp") .nil))
        (some 0) none ⟨[], [], [(0, ⟨[], []⟩)], [], 1⟩
      = (.error (.invalidChannelType (invalid_type_msg
          ((JObj.cons "type" (.str "smpp") .nil).getv "type"))),
         channel_new "c" (.cons "type" (.str "smpp") .nil),
         ⟨[], [], [(0, ⟨[], []⟩)], [], 1⟩) ∧
    ∃ pre, invalid_type_msg
        ((JObj.cons "type" (.str "smpp") .nil).getv "type")
      = pre ++ String.intercalate ", " (transports.map Prod.fst) :=
  c5_invalid_type (channel_new "c" (.cons "type" (.str "smpp") .nil))
    (some 0) ⟨[], [], [(0, ⟨[], []⟩)], [], 1⟩ (by decide)

/-! ## Claim C10: update with `config` on a channel that is not running -/

/-- Claim C10: when `update` is called with a non-None `config` while
`transport_worker` is `None`, reading `self.transport_worker.parent` raises
(`AttributeError` on `None`); by then the merged properties have already been
persisted by `save` — there is no rollback — and the worker handles are
untouched. -/
theorem c10_update_unstarted (ch : Channel) (p : JObj) (w : World)
    (h1 : ch.transport_worker = none)
    (h2 : (p.getv "config").isNotNone = true) :
    ch.update p w
      = (.error (.attributeError "parent"),
         { ch with _properties := ch._properties.upd p },
         Channel.save { ch with _properties := ch._properties.upd p } w) ∧
    slookup (Channel.save { ch with _properties := ch._properties.upd p }
        w).redisProps ch.id = some (ch._properties.upd p) ∧
    ({ ch with _properties := ch._properties.upd p }).transport_worker = none ∧
    ({ ch with _properties := ch._properties.upd p }).application_worker
      = ch.application_worker := by
  refine ⟨?_, ?_, h1, rfl⟩
  · simp [Channel.update, h1, h2]
  · simpa [Channel.save] using
      slookup_sset_self w.redisProps ch.id (ch._properties.upd p)

/-- Claim C10, witness: a never-started concrete channel updated with a
`config` mapping fails with the `AttributeError` after persisting the merge. -/
theorem c10_update_unstarted_witness :
    Channel.update (channel_new "c" (.cons "mo_url" (.str "u") .nil))
        (.cons "config" (.obj .nil) .nil) ⟨[], [], [], [], 0⟩
      = (.error (.attributeError "parent"),
         { channel_new "c" (.cons "mo_url" (.str "u") .nil) with
            _properties := (JObj.cons "mo_url" (.str "u") .nil).upd
              (.cons "config" (.obj .nil) .nil) },
         Channel.save
           { channel_new "c" (.cons "mo_url" (.str "u") .nil) with
              _properties := (JObj.cons "mo_url" (.str "u") .nil).upd
                (.cons "config" (.obj .nil) .nil) }
           ⟨[], [], [], [], 0⟩) ∧
    slookup (Channel.save
        { channel_new "c" (.cons "mo_url" (.str "u") .nil) with
           _properties := (JObj.cons "mo_url" (.str "u") .nil).upd
             (.cons "config" (.obj .nil) .nil) }
        ⟨[], [], [], [], 0⟩).redisProps "c"
      = some ((JObj.cons "mo_url" (.str "u") .nil).upd
          (.cons "config" (.obj .nil) .nil)) ∧
    ({ channel_new "c" (.cons "mo_url" (.str "u") .nil) with
        _properties := (JObj.cons "mo_url" (.str "u") .nil).upd
          (.cons "config" (.obj .nil) .nil) }).transport_worker = none ∧
    ({ channel_new "c" (.cons "mo_url" (.str "u") .nil) with
        _properties := (JObj.cons "mo_url" (.str "u") .nil).upd
          (.cons "config" (.obj .nil) .nil) }).application_worker
      = (channel_new "c" (.cons "mo_url" (.str "u") .nil)).application_worker :=
  c10_update_unstarted (channel_new "c" (.cons "mo_url" (.str "u") .nil))
    (.cons "config" (.obj .nil) .nil) ⟨[], [], [], [], 0⟩ rfl (by decide)

/-! ## Claim C7: delete removes the record but not the set membership -/

theorem mem_saddChannels (l : List String) (x : String) :
    x ∈ saddChannels l x := by
  by_cases h : x ∈ l <;> simp [saddChannels, h]

/-- Claim C7: after `save` then `delete`, loading the id fails with
`ChannelNotFound`, yet the id is still a member of `get_all` (the `channels`
set is not cleaned up); records of other ids are untouched, and `delete`
leaves the supervision tree and worker table (hence any live workers)
untouched. -/
theorem c7_delete_semantics (ch : Channel) (w : World) (parent : Nat) :
    from_id (Channel.delete ch (Channel.save ch w)) ch.id parent
      = .error .channelNotFound ∧
    ch.id ∈ get_all (Channel.delete ch (Channel.save ch w)) ∧
    (∀ other, other ≠ ch.id →
      slookup (Channel.delete ch (Channel.save ch w)).redisProps other
        = slookup (Channel.save ch w).redisProps other) ∧
    (Channel.delete ch (Channel.save ch w)).services
      = (Channel.save ch w).services ∧
    (Channel.delete ch (Channel.save ch w)).workers
      = (Channel.save ch w).workers := by
  refine ⟨?_, ?_, ?_, rfl, rfl⟩
  · simp [from_id, Channel.delete, Channel.save, slookup_sremove_self]
  · simpa [get_all, Channel.delete, Channel.save] using
      mem_saddChannels w.redisChannels ch.id
  · intro other hne
    simp [Channel.delete, Channel.save]
    exact slookup_sremove_ne _ ch.id other (Ne.symm hne)

/-! ## Claim C4: from_id after save -/

/-- Claim C4, counterexample: with a `properties` record present but the
channel not running under the parent (no workers named after it), `from_id`
does not return a channel — `_restore` raises `KeyError` from
`getServiceNamed` — so "otherwise it returns a Channel whose properties equal
the saved ones" fails as stated. -/
theorem c4_counterexample :
    (slookup (Channel.save (channel_new "c" (.cons "x" (.num 1) .nil))
        ⟨[], [], [(0, ⟨[], []⟩)], [], 1⟩).redisProps "c").isSome = true ∧
    from_id (Channel.save (channel_new "c" (.cons "x" (.num 1) .nil))
        ⟨[], [], [(0, ⟨[], []⟩)], [], 1⟩) "c" 0
      = .error (.keyError "c") := by
  decide

/-- Claim C4 (amended): provided the parent service has attached workers
named `id` and `"application:" + id` (the channel is running there),
`from_id` raises `ChannelNotFound` exactly when no `properties` record is
stored for the id, and otherwise returns a Channel whose properties equal the
stored record — in particular, the one most recently persisted by `save`
(serialization through the store round-trips). -/
theorem c4_from_id (w : World) (id : String) (parent : Nat) (svc : IService)
    (t a : Nat)
    (hsvc : alookup w.services parent = some svc)
    (ht : slookup svc.named id = some t)
    (ha : slookup svc.named ("application:" ++ id) = some a) :
    (from_id w id parent = .error .channelNotFound ↔
      slookup w.redisProps id = none) ∧
    (∀ props, slookup w.redisProps id = some props →
      from_id w id parent = .ok ⟨id, props, some t, some a⟩) ∧
    (∀ ch : Channel, ch.id = id →
      from_id (ch.save w) id parent
        = .ok ⟨id, ch._properties, some t, some a⟩) := by
  refine ⟨?_, ?_, ?_⟩
  · cases hp : slookup w.redisProps id with
    | none => simp [from_id, hp]
    | some props => simp [from_id, hp, getServiceNamed, hsvc, ht, ha]
  · intro props hp
    simp [from_id, hp, getServiceNamed, hsvc, ht, ha]
  · intro ch hid
    subst hid
    simp [from_id, Channel.save, slookup_sset_self, getServiceNamed, hsvc,
      ht, ha]

/-- Claim C4 amended, witness: a concrete running channel saved and reloaded
comes back with the saved properties and the running worker handles. -/
theorem c4_from_id_witness :
    from_id (Channel.save (channel_new "c" (.cons "x" (.num 1) .nil))
        ⟨[], [], [(0, ⟨[1, 2], [("c", 1), ("application:c", 2)]⟩)],
          [(1, ⟨"t", .nil, some "c", some 0⟩),
           (2, ⟨"a", .nil, some "application:c", some 0⟩)], 3⟩) "c" 0
      = .ok ⟨"c", .cons "x" (.num 1) .nil, some 1, some 2⟩ :=
  (c4_from_id (Channel.save (channel_new "c" (.cons "x" (.num 1) .nil))
      ⟨[], [], [(0, ⟨[1, 2], [("c", 1), ("application:c", 2)]⟩)],
        [(1, ⟨"t", .nil, some "c", some 0⟩),
         (2, ⟨"a", .nil, some "application:c", some 0⟩)], 3⟩)
      "c" 0 ⟨[1, 2], [("c", 1), ("application:c", 2)]⟩ 1 2
      rfl rfl rfl).2.1
    (.cons "x" (.num 1) .nil) (by decide)

/-! ## Nat-keyed association-list lemmas -/

theorem alookup_aset_self {α : Type} : (l : List (Nat × α)) → (k : Nat)
    → (v : α) → alookup (aset l k v) k = some v
  | [], k, v => by simp [aset, alookup]
  | (k1, v1) :: r, k, v => by
    by_cases h : k1 = k
    · simp [aset, alookup, h]
    · simp [aset, alookup, h, alookup_aset_self r k v]

theorem alookup_aset_ne {α : Type} : (l : List (Nat × α)) → (k k2 : Nat) →
    (v : α) → k ≠ k2 → alookup (aset l k v) k2 = alookup l k2
  | [], k, k2, v, h => by simp [aset, alookup, h]
  | (k1, v1) :: r, k, k2, v, h => by
    by_cases h1 : k1 = k
    · subst h1
      simp [aset, alookup, h]
    · simp [aset, alookup, h1, alookup_aset_ne r k k2 v h]

theorem aset_aset {α : Type} : (l : List (Nat × α)) → (k : Nat) →
    (v v2 : α) → aset (aset l k v) k v2 = aset l k v2
  | [], k, v, v2 => by simp [aset]
  | (k1, v1) :: r, k, v, v2 => by
    by_cases h : k1 = k
    · simp [aset, h]
    · simp [aset, h, aset_aset r k v v2]

theorem alookup_append_left {α : Type} : (l m : List (Nat × α)) →
    (k : Nat) → (v : α) → alookup l k = some v →
    alookup (l ++ m) k = some v
  | [], m, k, v, h => by simp [alookup] at h
  | (k1, v1) :: r, m, k, v, h => by
    by_cases h1 : k1 = k
    · simp [alookup, h1] at h ⊢
      exact h
    · simp [alookup, h1] at h ⊢
      exact alookup_append_left r m k v h

theorem alookup_append_fresh {α : Type} : (l : List (Nat × α)) →
    (k : Nat) → (v : α) → alookup l k = none →
    alookup (l ++ [(k, v)]) k = some v
  | [], k, v, h => by simp [alookup]
  | (k1, v1) :: r, k, v, h => by
    by_cases h1 : k1 = k
    · simp [alookup, h1] at h
    · simp [alookup, h1] at h ⊢
      exact alookup_append_fresh r k v h

theorem alookup_append_none {α : Type} : (l : List (Nat × α)) →
    (k k2 : Nat) → (v : α) → alookup l k = none → k2 ≠ k →
    alookup (l ++ [(k2, v)]) k = none
  | [], k, k2, v, h, h2 => by simp [alookup, h2]
  | (k1, v1) :: r, k, k2, v, h, h2 => by
    by_cases h1 : k1 = k
    · simp [alookup, h1] at h
    · simp [alookup, h1] at h ⊢
      exact alookup_append_none r k k2 v h h2

theorem aset_append_fresh {α : Type} : (l : List (Nat × α)) →
    (k : Nat) → (v v2 : α) → alookup l k = none →
    aset (l ++ [(k, v)]) k v2 = l ++ [(k, v2)]
  | [], k, v, v2, h => by simp [aset]
  | (k1, v1) :: r, k, v, v2, h => by
    by_cases h1 : k1 = k
    · simp [alookup, h1] at h
    · simp [alookup, h1] at h
      simp [aset, h1, aset_append_fresh r k v v2 h]

theorem alookup_append {α : Type} : (l m : List (Nat × α)) → (k : Nat) →
    alookup (l ++ m) k
      = (match alookup l k with
         | some v => some v
         | none => alookup m k)
  | [], m, k => by simp [alookup]
  | (k1, v1) :: r, m, k => by
    by_cases h : k1 = k
    · simp [alookup, h]
    · simp [alookup, h, alookup_append r m k]

theorem aset_append {α : Type} : (l m : List (Nat × α)) → (k : Nat) →
    (v : α) → alookup l k = none → aset (l ++ m) k v = l ++ aset m k v
  | [], m, k, v, h => by simp
  | (k1, v1) :: r, m, k, v, h => by
    by_cases h1 : k1 = k
    · simp [alookup, h1] at h
    · simp [alookup, h1] at h
      simp [aset, h1, aset_append r m k v h]

/-- Shape of a successful default `start` (src/junebug/channel.py lines
59-63): two fresh workers are created, named `id` and `"application:" + id`,
attached under the given service (overwriting those name bindings and
appending to the children), and stored in the channel's handles.  Nothing is
detached. -/
theorem start_ok_shape (ch : Channel) (w : World) (s : Nat) (svc : IService)
    (cls : String) (cfg : JObj) (mo : JVal)
    (h1 : transportsGet (ch._properties.getv "type") = some cls)
    (h2 : ch._properties.get? "config" = some (.obj cfg))
    (h3 : ch._properties.get? "mo_url" = some mo)
    (h4 : alookup w.services s = some svc)
    (h5 : alookup w.workers w.nextWorker = none)
    (h6 : alookup w.workers (w.nextWorker + 1) = none) :
    ch.start (some s) none w
      = (.ok (),
         { ch with transport_worker := some w.nextWorker,
                   application_worker := some (w.nextWorker + 1) },
         { w with
            services := aset w.services s
              ⟨(svc.children ++ [w.nextWorker]) ++ [w.nextWorker + 1],
               sset (sset svc.named ch.id w.nextWorker)
                 ("application:" ++ ch.id) (w.nextWorker + 1)⟩,
            workers := (w.workers
              ++ [(w.nextWorker,
                   ⟨cls, cfg.set "transport_name" (.str ch.id),
                    some ch.id, some s⟩)])
              ++ [(w.nextWorker + 1,
                   ⟨_application_cls_name,
                    (JObj.nil.set "transport_name" (.str ch.id)).set
                      "mo_message_url" mo,
                    some ("application:" ++ ch.id), some s⟩)],
            nextWorker := w.nextWorker + 1 + 1 }) := by
  simp [Channel.start, _start_transport, _start_application,
    _create_transport, _transport_cls_name, h1, _transport_config,
    _create_application, _application_config, _application_cls_name,
    JObj.idx, h2, h3, _convert_unicode, create_worker,
    setName, setServiceParent, _application_id,
    alookup_append, aset_append, alookup, aset, alookup_aset_self,
    aset_aset, self_eq_add_right, h4, h5, h6]

/-- The application worker name never collides with the transport worker
name (it carries a nonempty prefix). -/
theorem app_name_ne (id : String) : ("application:" ++ id) ≠ id := by
  intro h
  have hlen := congrArg String.length h
  simp [String.length_append] at hlen
  exact absurd hlen (by decide)

/-! ## Claim C3: start on an already-running channel -/

/-- Claim C3, counterexample: starting an already-running channel does not
stop it first.  On a concrete running channel, `start` succeeds and attaches
two fresh workers (3 and 4) with the channel's names while the old workers
(1 and 2) remain attached under the same parent — worker 1 is still a child
of service 0 with parent 0 and name `"c"` while worker 3 is also a child of
service 0 with parent 0 and name `"c"`, so two attached transport workers for
the same channel id coexist, and nothing was detached. -/
theorem c3_counterexample :
    (Channel.start ⟨"c",
        .cons "type" (.str "telnet") (.cons "config" (.obj .nil)
          (.cons "mo_url" (.str "u") .nil)), some 1, some 2⟩ (some 0) none
      ⟨[], [], [(0, ⟨[1, 2], [("c", 1), ("application:c", 2)]⟩)],
        [(1, ⟨"vumi.transports.telnet.TelnetServerTransport",
            .cons "transport_name" (.str "c") .nil, some "c", some 0⟩),
         (2, ⟨"junebug.workers.MessageForwardingWorker", .nil,
            some "application:c", some 0⟩)], 3⟩).1 = .ok () ∧
    (Channel.start ⟨"c",
        .cons "type" (.str "telnet") (.cons "config" (.obj .nil)
          (.cons "mo_url" (.str "u") .nil)), some 1, some 2⟩ (some 0) none
      ⟨[], [], [(0, ⟨[1, 2], [("c", 1), ("application:c", 2)]⟩)],
        [(1, ⟨"vumi.transports.telnet.TelnetServerTransport",
            .cons "transport_name" (.str "c") .nil, some "c", some 0⟩),
         (2, ⟨"junebug.workers.MessageForwardingWorker", .nil,
            some "application:c", some 0⟩)], 3⟩).2.1.transport_worker
      = some 3 ∧
    alookup (Channel.start ⟨"c",
        .cons "type" (.str "telnet") (.cons "config" (.obj .nil)
          (.cons "mo_url" (.str "u") .nil)), some 1, some 2⟩ (some 0) none
      ⟨[], [], [(0, ⟨[1, 2], [("c", 1), ("application:c", 2)]⟩)],
        [(1, ⟨"vumi.transports.telnet.TelnetServerTransport",
            .cons "transport_name" (.str "c") .nil, some "c", some 0⟩),
         (2, ⟨"junebug.workers.MessageForwardingWorker", .nil,
            some "application:c", some 0⟩)], 3⟩).2.2.workers 1
      = some ⟨"vumi.transports.telnet.TelnetServerTransport",
          .cons "transport_name" (.str "c") .nil, some "c", some 0⟩ ∧
    alookup (Channel.start ⟨"c",
        .cons "type" (.str "telnet") (.cons "config" (.obj .nil)
          (.cons "mo_url" (.str "u") .nil)), some 1, some 2⟩ (some 0) none
      ⟨[], [], [(0, ⟨[1, 2], [("c", 1), ("application:c", 2)]⟩)],
        [(1, ⟨"vumi.transports.telnet.TelnetServerTransport",
            .cons "transport_name" (.str "c") .nil, some "c", some 0⟩),
         (2, ⟨"junebug.workers.MessageForwardingWorker", .nil,
            some "application:c", some 0⟩)], 3⟩).2.2.services 0
      = some ⟨[1, 2, 3, 4], [("c", 3), ("application:c", 4)]⟩ := by
  decide

/-- Claim C3 (amended): `start` on an already-running channel is not a
stop-then-start — it detaches nothing.  It attaches fresh workers under the
channel's deterministic names; the old transport worker remains recorded as
attached (same entry, still a child of the same service) while the fresh one
holds the name binding, so the per-id at-most-one-attached-worker property is
not enforced by `start` (clean restart is only what `update` achieves by
calling `stop` first). -/
theorem c3_start_running (ch : Channel) (w : World) (s : Nat)
    (svc : IService) (cls : String) (cfg : JObj) (mo : JVal)
    (t : Nat) (tinfo : WorkerInfo)
    (hrun : ch.transport_worker = some t)
    (ht : alookup w.workers t = some tinfo)
    (htp : tinfo.parent = some s)
    (htc : t ∈ svc.children)
    (h1 : transportsGet (ch._properties.getv "type") = some cls)
    (h2 : ch._properties.get? "config" = some (.obj cfg))
    (h3 : ch._properties.get? "mo_url" = some mo)
    (h4 : alookup w.services s = some svc)
    (h5 : alookup w.workers w.nextWorker = none)
    (h6 : alookup w.workers (w.nextWorker + 1) = none) :
    ∃ ch2 w2, ch.start (some s) none w = (.ok (), ch2, w2) ∧
      ch2.transport_worker = some w.nextWorker ∧
      ch2.transport_worker ≠ ch.transport_worker ∧
      alookup w2.workers t = some tinfo ∧
      tinfo.parent = some s ∧
      ∃ svc2, alookup w2.services s = some svc2 ∧
        t ∈ svc2.children ∧ w.nextWorker ∈ svc2.children ∧
        slookup svc2.named ch.id = some w.nextWorker := by
  have htn : t ≠ w.nextWorker := by
    intro hteq
    rw [hteq, h5] at ht
    cases ht
  refine ⟨_, _, start_ok_shape ch w s svc cls cfg mo h1 h2 h3 h4 h5 h6,
    rfl, ?_, ?_, htp, ?_⟩
  · rw [hrun]
    simp [Ne.symm htn]
  · simp [alookup_append, ht]
  · refine ⟨_, alookup_aset_self w.services s _, ?_, ?_, ?_⟩
    · simp [htc]
    · simp
    · rw [slookup_sset_ne _ _ _ _ (app_name_ne ch.id)]
      exact slookup_sset_self _ _ _

/-- Claim C3 amended, witness: the theorem applied to the concrete running
channel of the counterexample state. -/
theorem c3_start_running_witness :
    ∃ ch2 w2, Channel.start ⟨"c",
        .cons "type" (.str "telnet") (.cons "config" (.obj .nil)
          (.cons "mo_url" (.str "u") .nil)), some 1, some 2⟩ (some 0) none
      ⟨[], [], [(0, ⟨[1, 2], [("c", 1), ("application:c", 2)]⟩)],
        [(1, ⟨"vumi.transports.telnet.TelnetServerTransport",
            .cons "transport_name" (.str "c") .nil, some "c", some 0⟩),
         (2, ⟨"junebug.workers.MessageForwardingWorker", .nil,
            some "application:c", some 0⟩)], 3⟩ = (.ok (), ch2, w2) ∧
      ch2.transport_worker = some 3 ∧
      ch2.transport_worker ≠ some 1 ∧
      alookup w2.workers 1
        = some ⟨"vumi.transports.telnet.TelnetServerTransport",
            .cons "transport_name" (.str "c") .nil, some "c", some 0⟩ ∧
      (⟨"vumi.transports.telnet.TelnetServerTransport",
          .cons "transport_name" (.str "c") .nil, some "c", some 0⟩
        : WorkerInfo).parent = some 0 ∧
      ∃ svc2, alookup w2.services 0 = some svc2 ∧
        1 ∈ svc2.children ∧ 3 ∈ svc2.children ∧
        slookup svc2.named "c" = some 3 :=
  c3_start_running ⟨"c",
      .cons "type" (.str "telnet") (.cons "config" (.obj .nil)
        (.cons "mo_url" (.str "u") .nil)), some 1, some 2⟩
    ⟨[], [], [(0, ⟨[1, 2], [("c", 1), ("application:c", 2)]⟩)],
      [(1, ⟨"vumi.transports.telnet.TelnetServerTransport",
          .cons "transport_name" (.str "c") .nil, some "c", some 0⟩),
       (2, ⟨"junebug.workers.MessageForwardingWorker", .nil,
          some "application:c", some 0⟩)], 3⟩
    0 ⟨[1, 2], [("c", 1), ("application:c", 2)]⟩
    "vumi.transports.telnet.TelnetServerTransport"
    JObj.nil (.str "u") 1
    ⟨"vumi.transports.telnet.TelnetServerTransport",
      .cons "transport_name" (.str "c") .nil, some "c", some 0⟩
    rfl (by decide) rfl (by decide) (by decide) (by decide) (by decide)
    (by decide) (by decide) (by decide)

/-! ## Claim C2: update semantics -/

/-- Shape of a successful `stop` on a channel whose two workers are attached
under service `s` with their canonical names: both are removed from the
name map and the child list, their parent handles cleared, and both channel
handles cleared. -/
theorem stop_ok_shape (ch : Channel) (w : World) (s t a : Nat)
    (tinfo ainfo : WorkerInfo) (svc : IService) (tn an : String)
    (x y : Nat)
    (hrt : ch.transport_worker = some t)
    (hra : ch.application_worker = some a)
    (hta : t ≠ a)
    (hts : alookup w.workers t = some tinfo)
    (htp : tinfo.parent = some s)
    (htn : tinfo.wname = some tn)
    (htne : tn ≠ "")
    (htna : tn ≠ an)
    (htnin : slookup svc.named tn = some y)
    (htc : t ∈ svc.children)
    (ha : alookup w.workers a = some ainfo)
    (hap : ainfo.parent = some s)
    (han : ainfo.wname = some an)
    (hane : an ≠ "")
    (hanin : slookup svc.named an = some x)
    (hac : a ∈ svc.children)
    (hsvc : alookup w.services s = some svc) :
    ch.stop w
      = (.ok (),
         { ch with transport_worker := none, application_worker := none },
         { w with
            services := aset w.services s
              ⟨(svc.children.erase a).erase t,
               sremove (sremove svc.named an) tn⟩,
            workers := aset (aset w.workers a { ainfo with parent := none })
              t { tinfo with parent := none } }) := by
  have hat : a ≠ t := Ne.symm hta
  have hant : an ≠ tn := Ne.symm htna
  simp [Channel.stop, _stop_application, _stop_transport, hrt, hra,
    disownServiceParent, removeService, hts, htp, htn, ha, hap, han, hsvc,
    hane, htne, hanin, hac, alookup_aset_ne _ _ _ _ hat, alookup_aset_self,
    aset_aset, slookup_sremove_ne _ _ _ hant, htnin,
    List.mem_erase_of_ne hta, htc]


theorem app_name_ne_empty (id : String) : ("application:" ++ id) ≠ "" := by
  intro h
  have hlen := congrArg String.length h
  simp [String.length_append] at hlen
  exact absurd hlen.1 (by decide)


/-- Claim C2 (amended): `update(p)` shallow-merges `p` into the properties
and persists via `save`; it performs a stop-then-start under the parent the
transport worker is currently attached to **iff the merge carried `config`
with a non-None value** (the code tests `properties.get('config') is not
None`, not key membership).  Without that, the worker handles, worker table
and service tree are untouched; with it (on a running, well-attached channel
whose merged properties start cleanly) both workers are recreated — fresh
handles, attached under the same parent supervisor — and in both cases the
merged properties are persisted and the returned value is `status()` of the
merged channel. -/
theorem c2_update_semantics :
    (∀ (ch : Channel) (p : JObj) (w : World),
      (p.getv "config").isNotNone = false →
      ch.update p w
        = (.ok (Channel.status
              { ch with _properties := ch._properties.upd p }),
           { ch with _properties := ch._properties.upd p },
           Channel.save { ch with _properties := ch._properties.upd p } w) ∧
      ({ ch with _properties := ch._properties.upd p }).transport_worker
        = ch.transport_worker ∧
      ({ ch with _properties := ch._properties.upd p }).application_worker
        = ch.application_worker ∧
      (Channel.save { ch with _properties := ch._properties.upd p }
        w).workers = w.workers ∧
      (Channel.save { ch with _properties := ch._properties.upd p }
        w).services = w.services ∧
      slookup (Channel.save { ch with _properties := ch._properties.upd p }
          w).redisProps ch.id
        = some (ch._properties.upd p)) ∧
    (∀ (ch : Channel) (p : JObj) (w : World) (s t a x y : Nat)
       (tinfo ainfo : WorkerInfo) (svc : IService) (cls : String)
       (cfg2 : JObj) (mo2 : JVal),
      ch.transport_worker = some t →
      ch.application_worker = some a →
      t ≠ a →
      alookup w.workers t = some tinfo →
      tinfo.parent = some s →
      tinfo.wname = some ch.id →
      ch.id ≠ "" →
      slookup svc.named ch.id = some y →
      t ∈ svc.children →
      alookup w.workers a = some ainfo →
      ainfo.parent = some s →
      ainfo.wname = some ("application:" ++ ch.id) →
      slookup svc.named ("application:" ++ ch.id) = some x →
      a ∈ svc.children →
      alookup w.services s = some svc →
      transportsGet ((ch._properties.upd p).getv "type") = some cls →
      (ch._properties.upd p).get? "config" = some (.obj cfg2) →
      (ch._properties.upd p).get? "mo_url" = some mo2 →
      alookup w.workers w.nextWorker = none →
      alookup w.workers (w.nextWorker + 1) = none →
      (p.getv "config").isNotNone = true →
      ∃ ch3 w3,
        ch.update p w = (.ok (Channel.status ch3), ch3, w3) ∧
        ch3._properties = ch._properties.upd p ∧
        ch3.transport_worker = some w.nextWorker ∧
        ch3.application_worker = some (w.nextWorker + 1) ∧
        ch3.transport_worker ≠ ch.transport_worker ∧
        ch3.application_worker ≠ ch.application_worker ∧
        (∃ info, alookup w3.workers w.nextWorker = some info ∧
          info.parent = some s) ∧
        (∃ info, alookup w3.workers (w.nextWorker + 1) = some info ∧
          info.parent = some s) ∧
        slookup w3.redisProps ch.id = some (ch._properties.upd p)) := by
  constructor
  · intro ch p w hfalse
    refine ⟨?_, rfl, rfl, rfl, rfl, ?_⟩
    · simp [Channel.update, hfalse]
    · exact slookup_sset_self w.redisProps ch.id (ch._properties.upd p)
  · intro ch p w s t a x y tinfo ainfo svc cls cfg2 mo2
      hrt hra hta hts htp htn hidne htnin htc ha hap han hanin hac hsvc
      hm1 hm2 hm3 h5 h6 htrue
    have hnt : t ≠ w.nextWorker := by
      intro hq
      rw [hq, h5] at hts
      cases hts
    have hna : a ≠ w.nextWorker := by
      intro hq
      rw [hq, h5] at ha
      cases ha
    have hnt1 : t ≠ w.nextWorker + 1 := by
      intro hq
      rw [hq, h6] at hts
      cases hts
    have hna1 : a ≠ w.nextWorker + 1 := by
      intro hq
      rw [hq, h6] at ha
      cases ha
    have hstop := stop_ok_shape
      { ch with _properties := ch._properties.upd p }
      (Channel.save { ch with _properties := ch._properties.upd p } w)
      s t a tinfo ainfo svc ch.id ("application:" ++ ch.id) x y
      hrt hra hta hts htp htn hidne (Ne.symm (app_name_ne ch.id)) htnin htc
      ha hap han (app_name_ne_empty ch.id) hanin hac hsvc
    have hstart := start_ok_shape
      { ch with _properties := ch._properties.upd p,
                transport_worker := none, application_worker := none }
      { Channel.save { ch with _properties := ch._properties.upd p } w with
          services := aset
            (Channel.save { ch with _properties := ch._properties.upd p }
              w).services s
            ⟨(svc.children.erase a).erase t,
             sremove (sremove svc.named ("application:" ++ ch.id)) ch.id⟩,
          workers := aset (aset
            (Channel.save { ch with _properties := ch._properties.upd p }
              w).workers a { ainfo with parent := none })
            t { tinfo with parent := none } }
      s ⟨(svc.children.erase a).erase t,
         sremove (sremove svc.named ("application:" ++ ch.id)) ch.id⟩
      cls cfg2 mo2 hm1 hm2 hm3
      (alookup_aset_self _ _ _)
      (by
        dsimp only [Channel.save]
        rw [alookup_aset_ne _ _ _ _ hnt, alookup_aset_ne _ _ _ _ hna]
        exact h5)
      (by
        dsimp only [Channel.save]
        rw [alookup_aset_ne _ _ _ _ hnt1, alookup_aset_ne _ _ _ _ hna1]
        exact h6)
    refine ⟨{ ch with _properties := ch._properties.upd p,
                      transport_worker := some w.nextWorker,
                      application_worker := some (w.nextWorker + 1) },
      { w with
        redisProps := sset w.redisProps ch.id (ch._properties.upd p),
        redisChannels := saddChannels w.redisChannels ch.id,
        services := aset (aset w.services s
            ⟨(svc.children.erase a).erase t,
             sremove (sremove svc.named ("application:" ++ ch.id)) ch.id⟩) s
          ⟨((((svc.children.erase a).erase t) ++ [w.nextWorker])
              ++ [w.nextWorker + 1]),
           sset (sset (sremove (sremove svc.named
                 ("application:" ++ ch.id)) ch.id) ch.id w.nextWorker)
             ("application:" ++ ch.id) (w.nextWorker + 1)⟩,
        workers := ((aset (aset w.workers a { ainfo with parent := none })
              t { tinfo with parent := none })
            ++ [(w.nextWorker,
                 ⟨cls, cfg2.set "transport_name" (.str ch.id),
                  some ch.id, some s⟩)])
          ++ [(w.nextWorker + 1,
               ⟨_application_cls_name,
                (JObj.nil.set "transport_name" (.str ch.id)).set
                  "mo_message_url" mo2,
                some ("application:" ++ ch.id), some s⟩)],
        nextWorker := w.nextWorker + 1 + 1 },
      ?_, ?_, ?_, ?_, ?_, ?_, ?_, ?_, ?_⟩
    · simp only [Channel.update, htrue, if_true]
      simp only [Channel.save] at hstop hstart ⊢
      simp only [hrt, hra, hts, htp] at hstop hstart ⊢
      simp [hstop, hstart]
    · simp [Channel.save]
    · simp [Channel.save]
    · simp [Channel.save]
    · rw [hrt]
      simp [Channel.save, Ne.symm hnt]
    · rw [hra]
      simp [Channel.save, Ne.symm hna1]
    · refine ⟨⟨cls, cfg2.set "transport_name" (.str ch.id),
          some ch.id, some s⟩, ?_, rfl⟩
      simp [Channel.save, alookup_append, alookup_aset_ne _ _ _ _ hnt,
        alookup_aset_ne _ _ _ _ hna, h5, alookup]
    · refine ⟨⟨_application_cls_name,
          (JObj.nil.set "transport_name" (.str ch.id)).set
            "mo_message_url" mo2,
          some ("application:" ++ ch.id), some s⟩, ?_, rfl⟩
      simp [Channel.save, alookup_append, alookup_aset_ne _ _ _ _ hnt1,
        alookup_aset_ne _ _ _ _ hna1, h6, alookup, self_eq_add_right]
    · simp [Channel.save, slookup_sset_self]

/-- Claim C2, counterexample: `update` with a partial-properties mapping that
**includes the `config` key** bound to None does not stop or start anything —
the code tests `properties.get('config') is not None`, not key inclusion.
On a concrete running channel, the handles stay `1`/`2`, the service tree is
untouched and no worker is created (`nextWorker` still `3`), although the
merge is persisted and the merged status returned. -/
theorem c2_counterexample :
    JObj.mem (.cons "config" .null .nil) "config" = true ∧
    Channel.update ⟨"c", .cons "type" (.str "telnet")
        (.cons "config" (.obj .nil) (.cons "mo_url" (.str "u") .nil)),
        some 1, some 2⟩
      (.cons "config" .null .nil)
      ⟨[], [], [(0, ⟨[1, 2], [("c", 1), ("application:c", 2)]⟩)],
        [(1, ⟨"vumi.transports.telnet.TelnetServerTransport",
            .cons "transport_name" (.str "c") .nil, some "c", some 0⟩),
         (2, ⟨"junebug.workers.MessageForwardingWorker", .nil,
            some "application:c", some 0⟩)], 3⟩
      = (.ok (.cons "type" (.str "telnet") (.cons "config" .null
          (.cons "mo_url" (.str "u") (.cons "id" (.str "c")
            (.cons "status" (.obj .nil) .nil))))),
         ⟨"c", .cons "type" (.str "telnet") (.cons "config" .null
           (.cons "mo_url" (.str "u") .nil)), some 1, some 2⟩,
         ⟨[("c", .cons "type" (.str "telnet") (.cons "config" .null
             (.cons "mo_url" (.str "u") .nil)))], ["c"],
          [(0, ⟨[1, 2], [("c", 1), ("application:c", 2)]⟩)],
          [(1, ⟨"vumi.transports.telnet.TelnetServerTransport",
              .cons "transport_name" (.str "c") .nil, some "c", some 0⟩),
           (2, ⟨"junebug.workers.MessageForwardingWorker", .nil,
              some "application:c", some 0⟩)], 3⟩) := by
  decide

/-- Claim C2 amended, witness: the no-restart part applied to a concrete
`mo_url`-only update, and the restart part applied to a concrete running
channel updated with a `config` dict — the recreated transport worker handle
is fresh (`3`, distinct from the old `1`). -/
theorem c2_update_semantics_witness :
    Channel.update ⟨"c", .cons "mo_url" (.str "u") .nil, some 1, some 2⟩
        (.cons "mo_url" (.str "y") .nil) ⟨[], [], [], [], 0⟩
      = (.ok (Channel.status { (⟨"c", .cons "mo_url" (.str "u") .nil,
            some 1, some 2⟩ : Channel) with
            _properties := (JObj.cons "mo_url" (.str "u") .nil).upd
              (.cons "mo_url" (.str "y") .nil) }),
         { (⟨"c", .cons "mo_url" (.str "u") .nil, some 1, some 2⟩
            : Channel) with
            _properties := (JObj.cons "mo_url" (.str "u") .nil).upd
              (.cons "mo_url" (.str "y") .nil) },
         Channel.save { (⟨"c", .cons "mo_url" (.str "u") .nil, some 1,
            some 2⟩ : Channel) with
            _properties := (JObj.cons "mo_url" (.str "u") .nil).upd
              (.cons "mo_url" (.str "y") .nil) } ⟨[], [], [], [], 0⟩) ∧
    ∃ ch3 w3,
      Channel.update ⟨"c", .cons "type" (.str "telnet")
          (.cons "config" (.obj .nil) (.cons "mo_url" (.str "u") .nil)),
          some 1, some 2⟩
        (.cons "config" (.obj (.cons "a" (.num 1) .nil)) .nil)
        ⟨[], [], [(0, ⟨[1, 2], [("c", 1), ("application:c", 2)]⟩)],
          [(1, ⟨"vumi.transports.telnet.TelnetServerTransport",
              .cons "transport_name" (.str "c") .nil, some "c", some 0⟩),
           (2, ⟨"junebug.workers.MessageForwardingWorker", .nil,
              some "application:c", some 0⟩)], 3⟩
        = (.ok ch3.status, ch3, w3) ∧
      ch3.transport_worker = some 3 ∧
      ch3.transport_worker ≠ some 1 := by
  constructor
  · exact ((c2_update_semantics.1
      ⟨"c", .cons "mo_url" (.str "u") .nil, some 1, some 2⟩
      (.cons "mo_url" (.str "y") .nil) ⟨[], [], [], [], 0⟩
      (by decide)).1)
  · obtain ⟨ch3, w3, h1, h2, h3, h4, h5x, h6x, h7x, h8x, h9x⟩ :=
      c2_update_semantics.2
        ⟨"c", .cons "type" (.str "telnet") (.cons "config" (.obj .nil)
          (.cons "mo_url" (.str "u") .nil)), some 1, some 2⟩
        (.cons "config" (.obj (.cons "a" (.num 1) .nil)) .nil)
        ⟨[], [], [(0, ⟨[1, 2], [("c", 1), ("application:c", 2)]⟩)],
          [(1, ⟨"vumi.transports.telnet.TelnetServerTransport",
              .cons "transport_name" (.str "c") .nil, some "c", some 0⟩),
           (2, ⟨"junebug.workers.MessageForwardingWorker", .nil,
              some "application:c", some 0⟩)], 3⟩
        0 1 2 2 1
        ⟨"vumi.transports.telnet.TelnetServerTransport",
          .cons "transport_name" (.str "c") .nil, some "c", some 0⟩
        ⟨"junebug.workers.MessageForwardingWorker", .nil,
          some "application:c", some 0⟩
        ⟨[1, 2], [("c", 1), ("application:c", 2)]⟩
        "vumi.transports.telnet.TelnetServerTransport"
        (.cons "a" (.num 1) .nil) (.str "u")
        rfl rfl (by decide) (by decide) rfl rfl (by decide) (by decide)
        (by decide) (by decide) rfl rfl (by decide) (by decide) (by decide)
        (by decide) (by decide) (by decide) (by decide) (by decide)
        (by decide)
    exact ⟨ch3, w3, h1, h3, h5x⟩
